import Mathlib

/-!
Shallow embedding of the control core of the android-iio-sensors-hal
repository (src/control.c plus its sysfs helpers), together with proofs
settling the frozen claims about it.

Modelling conventions:
* C `int` counters are modelled as `Int` (they may in principle go negative);
  device numbers, sensor indices and channel indices are `Nat` array indices.
* The global tables (`sensor_info`, `poll_sensors_per_dev`,
  `trig_sensors_per_dev`, `device_fd`) are fields of an explicit state record
  `HalState`; `device_fd d = -1` encodes an absent fd exactly as in the source.
* Membership of a device fd in the epoll set managed by the kernel is the
  boolean field `epoll_set`; `epoll_ctl(ADD)` / `epoll_ctl(DEL)` set and clear
  it.
* External, fallible system calls (`open`, `epoll_ctl`, sysfs reads) are
  resolved through explicit environment records (`ActEnv`, `SysfsEnv`, ...).
* Side effects performed against the kernel (sysfs writes, trigger writes,
  fd operations, the self-pipe wakeup byte) are accumulated in an ordered
  trace of `Effect` values so ordering claims can be stated.
-/

namespace IioHal

/-- Pointwise update of a table modelled as a function from indices. -/
def updFn {α : Type} (f : Nat → α) (i : Nat) (v : α) : Nat → α :=
  fun j => if j = i then v else f j

/-- Per-channel layout data inside `sensor_info[s].channel[c]`: byte size and
byte offset of the channel inside a device report.  (The `type_spec` string
and decoded `type_info` the source also stores there are only passed through
to the external `decode_type_spec`/`transform` collaborators; the decoder is
modelled as the environment function that yields the byte size, so those two
pass-through fields are not represented.) -/
structure ChannelInfo where
  size : Int
  offset : Int
deriving Repr, DecidableEq

/-- The fields of `struct sensor_info_t` that the control core reads or
writes.  `report_buffer` is indexed by `Int` so that pointer arithmetic into
it can be modelled directly; float samples are treated as opaque scalars. -/
structure SensorInfo where
  dev_num : Nat
  catalog_index : Nat
  num_channels : Nat
  enable_count : Int
  report_pending : Bool
  report_buffer : Int → Int
  sampling_rate : Int
  last_integration_ts : Int
  channels : Nat → ChannelInfo

/-- The process-wide mutable state of control.c: the sensor table, the two
per-device refcount tables, the device fd table, the kernel-side epoll
membership of each device fd, and the global poll-mode sensor count. -/
structure HalState where
  sensor_count : Nat
  sensor_info : Nat → SensorInfo
  poll_sensors_per_dev : Nat → Int
  trig_sensors_per_dev : Nat → Int
  device_fd : Nat → Int
  epoll_set : Nat → Bool
  active_poll_sensors : Int

/-- Replace the `sensor_info` entry of sensor `s`. -/
def setSensor (st : HalState) (s : Nat) (info : SensorInfo) : HalState :=
  { st with sensor_info := updFn st.sensor_info s info }

/-- Embedding of `adjust_counters` (control.c, lines 203-263).  Returns the C
return value (-1 inconsistency / 0 neutral / 1 state toggled) paired with the
updated state. -/
def adjust_counters (s : Nat) (enabled : Bool) (st : HalState) : Int × HalState :=
  let info := st.sensor_info s
  let dev_num := info.dev_num
  if enabled then
    let info1 := { info with enable_count := info.enable_count + 1 }
    let st1 := setSensor st s info1
    if info1.enable_count ≠ 1 then
      (0, st1)
    else if info.num_channels ≠ 0 then
      let trig1 := updFn st1.trig_sensors_per_dev dev_num
        (st1.trig_sensors_per_dev dev_num + 1)
      (1, { st1 with trig_sensors_per_dev := trig1 })
    else
      let poll1 := updFn st1.poll_sensors_per_dev dev_num
        (st1.poll_sensors_per_dev dev_num + 1)
      (1, { st1 with active_poll_sensors := st1.active_poll_sensors + 1,
                     poll_sensors_per_dev := poll1 })
  else
    if info.enable_count = 0 then
      (-1, st)
    else
      let info1 := { info with enable_count := info.enable_count - 1 }
      if info1.enable_count > 0 then
        (0, setSensor st s info1)
      else
        let info2 := { info1 with report_pending := false,
                                  report_buffer := fun _ => 0 }
        let st1 := setSensor st s info2
        if info.num_channels ≠ 0 then
          let trig1 := updFn st1.trig_sensors_per_dev dev_num
            (st1.trig_sensors_per_dev dev_num - 1)
          (1, { st1 with trig_sensors_per_dev := trig1 })
        else
          let poll1 := updFn st1.poll_sensors_per_dev dev_num
            (st1.poll_sensors_per_dev dev_num - 1)
          (1, { st1 with active_poll_sensors := st1.active_poll_sensors - 1,
                         poll_sensors_per_dev := poll1 })

/-- The string written to `trigger/current_trigger`: either `"none"` or the
per-sensor trigger name `"<internal_name>-dev<n>"`. -/
inductive TriggerVal where
  | trigNone : TriggerVal
  | trigSensorDev (s : Nat) (dev_num : Nat) : TriggerVal
deriving Repr, DecidableEq

/-- One externally visible side effect performed by the control core, in
program order: sysfs writes, the layout refresh, epoll registration calls,
device fd operations and the self-pipe wakeup byte. -/
inductive Effect where
  | bufferEnable (dev_num : Nat) (value : Int)
  | setTrigger (dev_num : Nat) (v : TriggerVal)
  | channelEnWrite (dev_num : Nat) (c : Nat) (value : Int)
  | refreshMaps (dev_num : Nat)
  | epollDel (dev_num : Nat)
  | closeDevFd (dev_num : Nat)
  | openDevFd (dev_num : Nat)
  | epollAdd (dev_num : Nat)
  | samplingRateWrite (dev_num : Nat) (rate : Int)
  | wakeupWrite
deriving Repr, DecidableEq

/-- Environment for one `sensor_activate` call: the fd returned by
`open(DEV_FILE_PATH)` (-1 on failure), whether `epoll_ctl(EPOLL_CTL_ADD)`
succeeds, and the per-channel layout fields that
`refresh_sensor_report_maps` writes for sensors of the affected device
(that function reads sysfs; its full embedding is given separately). -/
structure ActEnv where
  open_fd : Int
  epoll_add_ok : Bool
  refresh_channels : Nat → Nat → ChannelInfo → ChannelInfo

/-- State effect of the `refresh_sensor_report_maps(dev_num)` call made from
inside `sensor_activate`: it rewrites the channel layout fields of every
sensor bound to `dev_num` and touches nothing else. -/
def applyRefresh (env : ActEnv) (dev_num : Nat) (st : HalState) : HalState :=
  { st with sensor_info := fun s =>
      let info := st.sensor_info s
      if info.dev_num = dev_num then
        { info with channels := fun c => env.refresh_channels s c (info.channels c) }
      else info }

/-- Trigger-mode reconfiguration section of `sensor_activate` (control.c,
lines 285-324), run on the post-`adjust_counters` state `st1`: skipped
entirely for poll-mode sensors, otherwise writes `buffer/enable = 0`,
configures the trigger according to the device's new `trig_sensors_per_dev`
value (0 ⇒ "none", 1 ⇒ the per-sensor trigger name, otherwise untouched),
writes every channel's `_en` attribute, and, when the device still has
trigger-mode sensors, refreshes the report maps and writes
`buffer/enable = 1`. -/
def activate_trigger_reconfig (s : Nat) (enabled : Bool) (env : ActEnv)
    (dev_num : Nat) (st1 : HalState) : HalState × List Effect :=
  if (st1.sensor_info s).num_channels = 0 then
    (st1, [])
  else
    let tr1 := [Effect.bufferEnable dev_num 0] ++
      (if st1.trig_sensors_per_dev dev_num = 0 then
         [Effect.setTrigger dev_num TriggerVal.trigNone]
       else if st1.trig_sensors_per_dev dev_num = 1 then
         [Effect.setTrigger dev_num (TriggerVal.trigSensorDev s dev_num)]
       else [])
    let tr2 := tr1 ++ (List.range (st1.sensor_info s).num_channels).map
        (fun c => Effect.channelEnWrite dev_num c (if enabled then 1 else 0))
    if st1.trig_sensors_per_dev dev_num ≠ 0 then
      (applyRefresh env dev_num st1,
       tr2 ++ [Effect.refreshMaps dev_num, Effect.bufferEnable dev_num 1])
    else (st1, tr2)

/-- Device fd management section of `sensor_activate` (control.c, lines
332-387), run on the post-reconfiguration state `st2`.  On disable, the fd
is deregistered from epoll and closed exactly when it is open and both
refcounts of the device are zero.  On enable, a missing fd is opened; an
open failure rolls the counters back via `adjust_counters(s, 0)` and
returns -1; a fresh fd of a trigger-mode sensor is registered with epoll,
and a registration failure returns -1 (without rollback).  Every successful
enable ends by writing one byte to the wakeup socket pair. -/
def activate_fd_stage (s : Nat) (enabled : Bool) (env : ActEnv) (dev_num : Nat)
    (st2 : HalState) : Int × HalState × List Effect :=
  let dev_fd := st2.device_fd dev_num
  if enabled = false then
    if dev_fd ≠ -1 ∧ st2.poll_sensors_per_dev dev_num = 0 ∧
        st2.trig_sensors_per_dev dev_num = 0 then
      (0, { st2 with epoll_set := updFn st2.epoll_set dev_num false,
                     device_fd := updFn st2.device_fd dev_num (-1) },
       [Effect.epollDel dev_num, Effect.closeDevFd dev_num])
    else
      (0, st2, [])
  else if dev_fd = -1 then
    let new_fd := env.open_fd
    let st3 := { st2 with device_fd := updFn st2.device_fd dev_num new_fd }
    if new_fd = -1 then
      (-1, (adjust_counters s false st3).2, [Effect.openDevFd dev_num])
    else if (st2.sensor_info s).num_channels ≠ 0 then
      if env.epoll_add_ok then
        (0, { st3 with epoll_set := updFn st3.epoll_set dev_num true },
         [Effect.openDevFd dev_num, Effect.epollAdd dev_num, Effect.wakeupWrite])
      else
        (-1, st3, [Effect.openDevFd dev_num, Effect.epollAdd dev_num])
    else
      (0, st3, [Effect.openDevFd dev_num, Effect.wakeupWrite])
  else
    (0, st2, [Effect.wakeupWrite])

/-- Embedding of `sensor_activate` (control.c, lines 266-387).  Returns the C
return value, the updated state and the ordered trace of side effects the
call performed.  (`is_poll_sensor`, `dev_num` and `num_channels` are read
from the sensor table, which `adjust_counters` and the reconfiguration stage
leave unchanged, so the stages may re-read them.) -/
def sensor_activate (s : Nat) (enabled : Bool) (env : ActEnv) (st : HalState) :
    Int × HalState × List Effect :=
  let dev_num := (st.sensor_info s).dev_num
  let r := adjust_counters s enabled st
  if r.1 ≤ 0 then
    (r.1, r.2, [])
  else
    let p := activate_trigger_reconfig s enabled env dev_num r.2
    let q := activate_fd_stage s enabled env dev_num p.1
    (q.1, q.2.1, p.2 ++ q.2.2)

/-- Sysfs environment seen by `refresh_sensor_report_maps`, per (sensor,
channel) pair: the value read from the `_en` attribute (`none` when
`sysfs_read_int` fails), the byte size obtained by reading `_type` and
decoding it through the external `decode_type_spec` (`none` when the `_type`
read fails), and the value read from the `_index` attribute (`none` when that
read fails). -/
structure SysfsEnv where
  read_en : Nat → Nat → Option Int
  read_type_size : Nat → Nat → Option Int
  read_index : Nat → Nat → Option Int

/-- The three local index tables built by `refresh_sensor_report_maps`
(`channel_size_from_index`, `sensor_handle_from_index`,
`channel_number_from_index`, all zero-initialised) together with the
`active_channels` counter. -/
structure ReportTables where
  channel_size_from_index : Nat → Int
  sensor_handle_from_index : Nat → Nat
  channel_number_from_index : Nat → Nat
  active_channels : Nat

/-- The zero-initialised index tables. -/
def initTables : ReportTables :=
  { channel_size_from_index := fun _ => 0
    sensor_handle_from_index := fun _ => 0
    channel_number_from_index := fun _ => 0
    active_channels := 0 }

/-- Update the layout record of channel `c` of sensor `s` in the sensor
table. -/
def updateChannel (si : Nat → SensorInfo) (s c : Nat) (f : ChannelInfo → ChannelInfo) :
    Nat → SensorInfo :=
  updFn si s { si s with channels := updFn (si s).channels c (f ((si s).channels c)) }

/-- Body of the scan loop of `refresh_sensor_report_maps` (control.c, lines
101-167) for one (sensor, channel) pair.  A failed `_en`, `_type` or `_index`
read makes the loop `continue`.  The source condition `!ch_enabled != 1`
zeroes `sensor_info[s].channel[c].size`; since `!ch_enabled` is 1 exactly
when `ch_enabled == 0`, that condition fires exactly when `ch_enabled ≠ 0`,
and no branch skips the rest of the body based on the `_en` value.  A channel
whose `_index` value is ≥ MAX_SENSORS is skipped; otherwise its data is
recorded in the index tables and `active_channels` is incremented.  (For a
negative `_index` the C code indexes the arrays out of bounds; the model
writes at `Int.toNat`, and no theorem relies on that case.) -/
def refresh_scan_channel (max_sensors : Nat) (env : SysfsEnv) (s c : Nat)
    (acc : (Nat → SensorInfo) × ReportTables) : (Nat → SensorInfo) × ReportTables :=
  let si := acc.1
  let t := acc.2
  match env.read_en s c with
  | none => (si, t)
  | some ch_enabled =>
    let si1 := if (if ch_enabled = 0 then (1 : Int) else 0) ≠ 1 then
        updateChannel si s c (fun ci => { ci with size := 0 })
      else si
    match env.read_type_size s c with
    | none => (si1, t)
    | some size =>
      match env.read_index s c with
      | none => (si1, t)
      | some ch_index =>
        if (max_sensors : Int) ≤ ch_index then (si1, t)
        else
          (si1,
           { channel_size_from_index :=
               updFn t.channel_size_from_index ch_index.toNat size
             sensor_handle_from_index :=
               updFn t.sensor_handle_from_index ch_index.toNat s
             channel_number_from_index :=
               updFn t.channel_number_from_index ch_index.toNat c
             active_channels := t.active_channels + 1 })

/-- The (sensor, channel) pairs visited by the two nested scan loops: sensors
`s < sensor_count` bound to `dev_num`, each with channels
`c < num_channels`. -/
def device_channel_pairs (si : Nat → SensorInfo) (sensor_count dev_num : Nat) :
    List (Nat × Nat) :=
  (List.range sensor_count).bind fun s =>
    if (si s).dev_num = dev_num then
      (List.range (si s).num_channels).map fun c => (s, c)
    else []

/-- First phase of `refresh_sensor_report_maps`: the scan loop over all
channels of all sensors of the device, building the index tables. -/
def refresh_phase1 (max_sensors : Nat) (env : SysfsEnv) (dev_num : Nat)
    (st : HalState) : (Nat → SensorInfo) × ReportTables :=
  (device_channel_pairs st.sensor_info st.sensor_count dev_num).foldl
    (fun acc sc => refresh_scan_channel max_sensors env sc.1 sc.2 acc)
    (st.sensor_info, initTables)

/-- Body of the offset-assignment loop of `refresh_sensor_report_maps`
(control.c, lines 183-199) for one index `i`: entries with size 0 are
skipped, others receive the running offset, which then advances by the
size. -/
def refresh_phase2_step (t : ReportTables) (acc : (Nat → SensorInfo) × Int)
    (i : Nat) : (Nat → SensorInfo) × Int :=
  let s := t.sensor_handle_from_index i
  let c := t.channel_number_from_index i
  let size := t.channel_size_from_index i
  if size = 0 then acc
  else
    (updateChannel acc.1 s c (fun ci => { ci with offset := acc.2, size := size }),
     acc.2 + size)

/-- Embedding of `refresh_sensor_report_maps` (control.c, lines 57-200),
parameterised by the MAX_SENSORS and MAX_CHANNELS constants (whose defining
header is outside src/).  Returns the updated state together with the index
tables the call computed. -/
def refresh_sensor_report_maps (max_sensors max_channels : Nat) (env : SysfsEnv)
    (dev_num : Nat) (st : HalState) : HalState × ReportTables :=
  let p1 := refresh_phase1 max_sensors env dev_num st
  let t := p1.2
  let p2 := (List.range (max_sensors * max_channels)).foldl
    (refresh_phase2_step t) (p1.1, 0)
  ({ st with sensor_info := p2.1 }, t)

/-- Android sensor type codes, as enumerated by the `switch` in
`propagate_sensor_report`; the numeric SENSOR_TYPE_* constants live in the
external Android header. -/
inductive SensorType where
  | accelerometer | magneticField | orientation | gyroscope
  | light | ambientTemperature | temperature | proximity | pressure
  | relativeHumidity | rotationVector | devicePrivateBase | unknown
deriving Repr, DecidableEq

/-- Number of data fields per sensor type (the `switch` of
`propagate_sensor_report`, control.c lines 472-501). -/
def num_fields_of_type : SensorType → Nat
  | SensorType.accelerometer => 3
  | SensorType.magneticField => 3
  | SensorType.orientation => 3
  | SensorType.gyroscope => 3
  | SensorType.light => 1
  | SensorType.ambientTemperature => 1
  | SensorType.temperature => 1
  | SensorType.proximity => 1
  | SensorType.pressure => 1
  | SensorType.relativeHumidity => 1
  | SensorType.rotationVector => 4
  | SensorType.devicePrivateBase => 0
  | SensorType.unknown => 0

/-- The `sensors_event_t` structure as filled by the core: version, sensor
handle, type, timestamp, and the data array (floats modelled as opaque
scalars, all unwritten entries 0 from the initial memset). -/
structure SensorsEvent where
  version : Int
  sensor : Int
  type : SensorType
  timestamp : Int
  data : Nat → Int

/-- Environment for the poll path: the external sensor catalog type, the
clock, `sizeof(sensors_event_t)`, and the three external callbacks
(`acquire_immediate_value`, `ops.transform`, `ops.finalize`).  The
`transform` callback receives the byte window of the report buffer it is
given a pointer into. -/
structure PollEnv where
  catalog_type : Nat → SensorType
  event_size : Int
  now_event : Int
  now_integration : Int
  acquire_immediate_value : Nat → Nat → Int
  transform : Nat → Nat → (Nat → Int) → Int
  finalize : Nat → SensorsEvent → SensorsEvent

/-- Byte position of field `c`'s sample window inside the report buffer: the
`current_sample` pointer starts at the buffer and advances by
`channel[c].size` after each field. -/
def sample_base (info : SensorInfo) : Nat → Int
  | 0 => 0
  | c + 1 => sample_base info c + (info.channels c).size

/-- The event contents built by `propagate_sensor_report` before the final
`ops.finalize` call: the event is zeroed, version/sensor/type/timestamp are
filled in, the field count is derived from the sensor type, and each field
below it is read either through `acquire_immediate_value` (poll-mode) or
through `ops.transform` applied to the byte window of the report buffer at
the running channel offset (trigger-mode). -/
def shape_sensor_event (s : Nat) (env : PollEnv) (info : SensorInfo) : SensorsEvent :=
  let sensor_type := env.catalog_type info.catalog_index
  let nf := num_fields_of_type sensor_type
  if info.num_channels = 0 then
    { version := env.event_size, sensor := (s : Int), type := sensor_type,
      timestamp := env.now_event,
      data := fun c => if c < nf then env.acquire_immediate_value s c else 0 }
  else
    { version := env.event_size, sensor := (s : Int), type := sensor_type,
      timestamp := env.now_event,
      data := fun c =>
        if c < nf then
          env.transform s c (fun i => info.report_buffer (sample_base info c + i))
        else 0 }

/-- Embedding of `propagate_sensor_report` (control.c, lines 455-537): builds
the shaped event, stamps `last_integration_ts` and applies `ops.finalize`. -/
def propagate_sensor_report (s : Nat) (env : PollEnv) (st : HalState) :
    SensorsEvent × HalState :=
  let info := st.sensor_info s
  let st1 := setSensor st s { info with last_integration_ts := env.now_integration }
  (env.finalize s (shape_sensor_event s env info), st1)

/-- The scan of the drain loop at the top of `sensor_poll` (control.c, lines
598-606): the first sensor index in `[s0, count)` whose `report_pending`
flag is set. -/
def scanPendingFrom (info : Nat → SensorInfo) (count s0 : Nat) : Option Nat :=
  if _h : s0 < count then
    if (info s0).report_pending then some s0
    else scanPendingFrom info count (s0 + 1)
  else none
termination_by count - s0

/-- Drain phase of one `sensor_poll` call: if some sensor has a pending
report, the lowest-indexed one is propagated into the output event, its flag
is cleared and the call returns 1 (`return_first_available_sensor_report`).
A `none` result means no report was pending and control falls through to the
`await_event` label, i.e. to the rate-limit sleep and the `epoll_wait`. -/
def sensor_poll_drain (env : PollEnv) (st : HalState) :
    Option (Int × SensorsEvent × HalState) :=
  match scanPendingFrom st.sensor_info st.sensor_count 0 with
  | some s =>
    let pr := propagate_sensor_report s env st
    let st1 := pr.2
    let st2 := setSensor st1 s { st1.sensor_info s with report_pending := false }
    some (1, pr.1, st2)
  | none => none

/-- `POLL_MIN_INTERVAL` (control.c, line 31), in microseconds. -/
def POLL_MIN_INTERVAL : Int := 10000

/-- Conversion of an `int64_t` value to a C `int`: reduce modulo 2^32 into
the range [-2^31, 2^31). -/
def wrap_c_int (x : Int) : Int :=
  (x + 2147483648) % 4294967296 - 2147483648

/-- The rate-limit step at `await_event` (control.c, lines 609-613):
`delta = (get_timestamp() - last_poll_exit_ts) / 1000` truncated into an
`int`, and `usleep(POLL_MIN_INTERVAL - delta)` is called only when
`delta > 0 && delta < POLL_MIN_INTERVAL`.  The result is the number of
microseconds slept (0 when `usleep` is not called). -/
def poll_rate_limit_sleep (now last_poll_exit_ts : Int) : Int :=
  let delta := wrap_c_int (Int.tdiv (now - last_poll_exit_ts) 1000)
  if 0 < delta ∧ delta < POLL_MIN_INTERVAL then POLL_MIN_INTERVAL - delta else 0

/-- The errno value EINVAL. -/
def EINVAL : Int := 22

/-- Environment for `sensor_set_delay`: the current sampling rate read back
from sysfs (`none` when `sysfs_read_int` fails). -/
structure DelayEnv where
  cur_sampling_rate : Option Int

/-- Embedding of `sensor_set_delay` (control.c, lines 650-697): reject a zero
delay with -EINVAL before any side effect; compute
`new_sampling_rate = (int)(1000000000L / ns)`, promoting 0 to 1; if the sysfs
read-back succeeds and differs, write the new rate, bracketing the write with
buffer disable/enable when the device has trigger-mode sensors; store the
rate in `sensor_info[s].sampling_rate` and write the wakeup byte. -/
def sensor_set_delay (s : Nat) (ns : Int) (env : DelayEnv) (st : HalState) :
    Int × HalState × List Effect :=
  if ns = 0 then (-EINVAL, st, [])
  else
    let dev_num := (st.sensor_info s).dev_num
    let rate0 := wrap_c_int (Int.tdiv 1000000000 ns)
    let new_sampling_rate := if rate0 = 0 then 1 else rate0
    let tr :=
      match env.cur_sampling_rate with
      | none => []
      | some cur_sampling_rate =>
        if new_sampling_rate ≠ cur_sampling_rate then
          (if st.trig_sensors_per_dev dev_num ≠ 0 then
             [Effect.bufferEnable dev_num 0] else [])
          ++ [Effect.samplingRateWrite dev_num new_sampling_rate]
          ++ (if st.trig_sensors_per_dev dev_num ≠ 0 then
                [Effect.bufferEnable dev_num 1] else [])
        else []
    let st1 := setSensor st s
      { st.sensor_info s with sampling_rate := new_sampling_rate }
    (0, st1, tr ++ [Effect.wakeupWrite])

/-- Concrete sensor fixture used by the closed test theorems. -/
def mkSensor (dev nch : Nat) (cnt : Int) : SensorInfo :=
  { dev_num := dev, catalog_index := 0, num_channels := nch, enable_count := cnt,
    report_pending := false, report_buffer := fun _ => 0, sampling_rate := 0,
    last_integration_ts := 0, channels := fun _ => ⟨0, 0⟩ }

/-- Concrete process state fixture: fds closed, all counters zero, epoll set
empty, as established by `allocate_control_data`. -/
def mkState (count : Nat) (si : Nat → SensorInfo) : HalState :=
  { sensor_count := count, sensor_info := si,
    poll_sensors_per_dev := fun _ => 0, trig_sensors_per_dev := fun _ => 0,
    device_fd := fun _ => -1, epoll_set := fun _ => false,
    active_poll_sensors := 0 }

/-- Activation environment in which `open` and `epoll_ctl` succeed and the
layout refresh leaves channel records unchanged. -/
def envOk : ActEnv :=
  { open_fd := 7, epoll_add_ok := true, refresh_channels := fun _ _ ci => ci }

/-- The sensor record after a disable edge: refcount decremented to zero,
pending flag cleared, report buffer zeroed (control.c, lines 230-238). -/
def disabledSensor (info : SensorInfo) : SensorInfo :=
  { info with
      enable_count := info.enable_count - 1
      report_pending := false
      report_buffer := fun _ => 0 }

/-- Repeated application of `sensor_activate` with a fixed sensor, direction
and environment. -/
def iterate_activate (s : Nat) (enabled : Bool) (env : ActEnv) : Nat → HalState → HalState
  | 0, st => st
  | n + 1, st => iterate_activate s enabled env n ((sensor_activate s enabled env st).2.1)

/-- The three activation counters the round-trip claim is about. -/
def countersOf (st : HalState) : (Nat → Int) × (Nat → Int) × Int :=
  (st.poll_sensors_per_dev, st.trig_sensors_per_dev, st.active_poll_sensors)

/-- Overwrite only the `enable_count` of sensor `s`. -/
def setEnableCount (st : HalState) (s : Nat) (v : Int) : HalState :=
  setSensor st s { st.sensor_info s with enable_count := v }

/-- Sysfs fixture: one channel whose `_en` attribute reads 0 (disabled) but
whose `_type` decodes to 2 bytes and whose `_index` reads 0. -/
def envDisabledChannel : SysfsEnv :=
  { read_en := fun s c => if s = 0 ∧ c = 0 then some 0 else none
    read_type_size := fun s c => if s = 0 ∧ c = 0 then some 2 else none
    read_index := fun s c => if s = 0 ∧ c = 0 then some 0 else none }

/-- Sysfs fixture: one enabled 2-byte channel whose scan index reads 10. -/
def envIndexTen : SysfsEnv :=
  { read_en := fun s c => if s = 0 ∧ c = 0 then some 1 else none
    read_type_size := fun s c => if s = 0 ∧ c = 0 then some 2 else none
    read_index := fun s c => if s = 0 ∧ c = 0 then some 10 else none }

/-- The association the code maintains between the epoll set and the fd
table: only open fds are registered with the waiter. -/
def WaiterOpenInv (st : HalState) : Prop :=
  ∀ d, st.epoll_set d = true → st.device_fd d ≠ -1

/-- Any sequence of `sensor_activate` calls, each with its own environment. -/
def runActivates (calls : List (Nat × Bool × ActEnv)) (st : HalState) : HalState :=
  calls.foldl (fun st c => (sensor_activate c.1 c.2.1 c.2.2 st).2.1) st

/-- The exact condition under which `sensor_activate s true env st` performs
`epoll_ctl(EPOLL_CTL_ADD)` successfully: the counter step is an enable edge,
the device fd is absent (so the call freshly opens it), `open` succeeds, the
sensor is trigger-mode, and the registration itself succeeds. -/
def activateRegisters (s : Nat) (env : ActEnv) (st : HalState) : Prop :=
  (adjust_counters s true st).1 = 1 ∧
  st.device_fd ((st.sensor_info s).dev_num) = -1 ∧
  env.open_fd ≠ -1 ∧
  (st.sensor_info s).num_channels ≠ 0 ∧
  env.epoll_add_ok = true

/-- The exact condition under which `sensor_activate s false env st` performs
`epoll_ctl(EPOLL_CTL_DEL)` and `close`: the counter step is a disable edge,
the device fd is open, and both refcounts of the device are zero after the
counter step. -/
def activateDeregisters (s : Nat) (st : HalState) : Prop :=
  (adjust_counters s false st).1 = 1 ∧
  st.device_fd ((st.sensor_info s).dev_num) ≠ -1 ∧
  ((adjust_counters s false st).2).poll_sensors_per_dev
    ((st.sensor_info s).dev_num) = 0 ∧
  ((adjust_counters s false st).2).trig_sensors_per_dev
    ((st.sensor_info s).dev_num) = 0

/-- C7: disabling a sensor whose `enable_count` is 0 is rejected by
`adjust_counters` with -1 (the InvalidState error) and `sensor_activate`
returns it unchanged: the state is untouched and the effect trace is empty —
no sysfs write, no trigger or buffer manipulation, no fd or counter change,
and no wakeup byte. -/
theorem spurious_disable_no_side_effects (st : HalState) (s : Nat) (env : ActEnv)
    (h : (st.sensor_info s).enable_count = 0) :
    sensor_activate s false env st = (-1, st, []) := by
  simp [sensor_activate, adjust_counters, h]

/-- Closed instance of `spurious_disable_no_side_effects` at a concrete
state. -/
theorem spurious_disable_no_side_effects_witness :
    sensor_activate 0 false envOk (mkState 1 fun _ => mkSensor 0 3 0) =
      (-1, mkState 1 fun _ => mkSensor 0 3 0, []) :=
  spurious_disable_no_side_effects (mkState 1 fun _ => mkSensor 0 3 0) 0 envOk rfl

/-- Conversion to a C `int` is the identity on values already in int
range. -/
theorem wrap_c_int_eq_self (x : Int) (h0 : 0 ≤ x) (h1 : x < 2147483648) :
    wrap_c_int x = x := by
  unfold wrap_c_int
  omega

/-- Projection of the rate stored by a non-rejected `sensor_set_delay`
call. -/
theorem set_delay_stored_rate (s : Nat) (ns : Int) (env : DelayEnv) (st : HalState)
    (hne : ns ≠ 0) :
    ((sensor_set_delay s ns env st).2.1.sensor_info s).sampling_rate =
      (if wrap_c_int (Int.tdiv 1000000000 ns) = 0 then 1
       else wrap_c_int (Int.tdiv 1000000000 ns)) := by
  simp [sensor_set_delay, hne, setSensor, updFn]

/-- C9: `sensor_set_delay` rejects `ns = 0` with -EINVAL before performing
any side effect, and for every `ns ≥ 1` stores
`sampling_rate = max 1 ⌊10⁹ / ns⌋`; in particular any `ns > 10⁹` stores
exactly 1, never 0. -/
theorem set_delay_rate_formula :
    (∀ s env st, sensor_set_delay s 0 env st = (-EINVAL, st, [])) ∧
    (∀ s env st (ns : Int), 1 ≤ ns →
      ((sensor_set_delay s ns env st).2.1.sensor_info s).sampling_rate =
        max 1 (1000000000 / ns)) ∧
    (∀ s env st (ns : Int), 1000000000 < ns →
      ((sensor_set_delay s ns env st).2.1.sensor_info s).sampling_rate = 1) := by
  have key : ∀ s env st (ns : Int), 1 ≤ ns →
      ((sensor_set_delay s ns env st).2.1.sensor_info s).sampling_rate =
        max 1 (1000000000 / ns) := by
    intro s env st ns hns
    have hne : ns ≠ 0 := by omega
    have htd : Int.tdiv 1000000000 ns = 1000000000 / ns :=
      Int.tdiv_eq_ediv (by norm_num) (by omega)
    have hnn : 0 ≤ (1000000000 : Int) / ns := Int.ediv_nonneg (by norm_num) (by omega)
    have hub : (1000000000 : Int) / ns ≤ 1000000000 := Int.ediv_le_self _ (by norm_num)
    have hwrap : wrap_c_int (1000000000 / ns) = 1000000000 / ns :=
      wrap_c_int_eq_self _ hnn (by omega)
    rw [set_delay_stored_rate s ns env st hne, htd, hwrap]
    rcases eq_or_lt_of_le hnn with h0 | hpos
    · simp [← h0]
    · rw [if_neg (by omega), max_eq_right (by omega)]
  refine ⟨?_, key, ?_⟩
  · intro s env st
    simp [sensor_set_delay]
  · intro s env st ns h
    rw [key s env st ns (by omega), Int.ediv_eq_zero_of_lt (by norm_num) h]
    rfl

/-- Closed instance of `set_delay_rate_formula`: a zero delay is rejected
without effects, and a 2-second delay (ns > 10⁹) stores a 1 Hz rate. -/
theorem set_delay_rate_formula_witness :
    sensor_set_delay 0 0 ⟨none⟩ (mkState 1 fun _ => mkSensor 0 0 0) =
      (-EINVAL, mkState 1 fun _ => mkSensor 0 0 0, []) ∧
    ((sensor_set_delay 0 2000000000 ⟨none⟩
        (mkState 1 fun _ => mkSensor 0 0 0)).2.1.sensor_info 0).sampling_rate = 1 :=
  ⟨set_delay_rate_formula.1 0 ⟨none⟩ (mkState 1 fun _ => mkSensor 0 0 0),
   set_delay_rate_formula.2.2 0 ⟨none⟩ (mkState 1 fun _ => mkSensor 0 0 0)
     2000000000 (by norm_num)⟩

/-- C4 counterexample: when less than one microsecond has elapsed since the
last poll exit (here 500 ns), `delta` truncates to 0, the guard
`delta > 0` fails and no sleep at all is performed, although
`now - last_poll_exit_ts < POLL_MIN_INTERVAL`; the elapsed time plus the
sleep stays far below the claimed 10 ms floor. -/
theorem rate_limit_no_sleep_below_one_us :
    (500 : Int) - 0 < POLL_MIN_INTERVAL * 1000 ∧
    poll_rate_limit_sleep 500 0 = 0 ∧
    (500 : Int) - 0 + 1000 * poll_rate_limit_sleep 500 0 < 10000000 := by
  refine ⟨by decide, ?_, ?_⟩ <;> decide

/-- C4 amended: whenever at least one full microsecond (1000 ns) has elapsed
since `last_poll_exit_ts`, the elapsed time plus the rate-limit sleep
performed before the next wait is at least `POLL_MIN_INTERVAL` = 10 ms, so
two successive immediate wait returns are separated by ≥ 10 ms of real time;
when less than 1 µs has elapsed (`delta` truncates to 0) no sleep is
performed. -/
theorem rate_limit_floor (now last_poll_exit_ts : Int)
    (h : 1000 ≤ now - last_poll_exit_ts) :
    10000000 ≤ (now - last_poll_exit_ts) +
      1000 * poll_rate_limit_sleep now last_poll_exit_ts := by
  have htd : Int.tdiv (now - last_poll_exit_ts) 1000 =
      (now - last_poll_exit_ts) / 1000 :=
    Int.tdiv_eq_ediv (by omega) (by norm_num)
  simp only [poll_rate_limit_sleep, wrap_c_int, POLL_MIN_INTERVAL, htd]
  have hdiv1 : 1000 * ((now - last_poll_exit_ts) / 1000) ≤ now - last_poll_exit_ts := by
    omega
  have hdiv2 : now - last_poll_exit_ts <
      1000 * ((now - last_poll_exit_ts) / 1000) + 1000 := by
    omega
  generalize (now - last_poll_exit_ts) / 1000 = q at hdiv1 hdiv2 ⊢
  split
  · omega
  · omega

/-- Closed instance of `rate_limit_floor`: 5 ms elapsed, so the sleep tops
the separation up to at least 10 ms. -/
theorem rate_limit_floor_witness :
    10000000 ≤ ((5000000 : Int) - 0) + 1000 * poll_rate_limit_sleep 5000000 0 :=
  rate_limit_floor 5000000 0 (by decide)

@[simp]
theorem setSensor_device_fd (st : HalState) (s : Nat) (info : SensorInfo) :
    (setSensor st s info).device_fd = st.device_fd := rfl

@[simp]
theorem setSensor_epoll_set (st : HalState) (s : Nat) (info : SensorInfo) :
    (setSensor st s info).epoll_set = st.epoll_set := rfl

@[simp]
theorem setSensor_poll_dev (st : HalState) (s : Nat) (info : SensorInfo) :
    (setSensor st s info).poll_sensors_per_dev = st.poll_sensors_per_dev := rfl

@[simp]
theorem setSensor_trig_dev (st : HalState) (s : Nat) (info : SensorInfo) :
    (setSensor st s info).trig_sensors_per_dev = st.trig_sensors_per_dev := rfl

@[simp]
theorem setSensor_active (st : HalState) (s : Nat) (info : SensorInfo) :
    (setSensor st s info).active_poll_sensors = st.active_poll_sensors := rfl

@[simp]
theorem setSensor_sensor_count (st : HalState) (s : Nat) (info : SensorInfo) :
    (setSensor st s info).sensor_count = st.sensor_count := rfl

@[simp]
theorem setSensor_sensor_info_self (st : HalState) (s : Nat) (info : SensorInfo) :
    (setSensor st s info).sensor_info s = info := by
  simp [setSensor, updFn]

theorem setSensor_sensor_info_other (st : HalState) (s t : Nat) (info : SensorInfo)
    (h : t ≠ s) : (setSensor st s info).sensor_info t = st.sensor_info t := by
  simp [setSensor, updFn, h]

@[simp]
theorem applyRefresh_device_fd (env : ActEnv) (d : Nat) (st : HalState) :
    (applyRefresh env d st).device_fd = st.device_fd := rfl

@[simp]
theorem applyRefresh_epoll_set (env : ActEnv) (d : Nat) (st : HalState) :
    (applyRefresh env d st).epoll_set = st.epoll_set := rfl

@[simp]
theorem applyRefresh_poll_dev (env : ActEnv) (d : Nat) (st : HalState) :
    (applyRefresh env d st).poll_sensors_per_dev = st.poll_sensors_per_dev := rfl

@[simp]
theorem applyRefresh_trig_dev (env : ActEnv) (d : Nat) (st : HalState) :
    (applyRefresh env d st).trig_sensors_per_dev = st.trig_sensors_per_dev := rfl

@[simp]
theorem applyRefresh_active (env : ActEnv) (d : Nat) (st : HalState) :
    (applyRefresh env d st).active_poll_sensors = st.active_poll_sensors := rfl

@[simp]
theorem applyRefresh_enable_count (env : ActEnv) (d : Nat) (st : HalState) (s : Nat) :
    ((applyRefresh env d st).sensor_info s).enable_count =
      (st.sensor_info s).enable_count := by
  simp only [applyRefresh]
  split <;> rfl

@[simp]
theorem applyRefresh_num_channels (env : ActEnv) (d : Nat) (st : HalState) (s : Nat) :
    ((applyRefresh env d st).sensor_info s).num_channels =
      (st.sensor_info s).num_channels := by
  simp only [applyRefresh]
  split <;> rfl

@[simp]
theorem applyRefresh_dev_num (env : ActEnv) (d : Nat) (st : HalState) (s : Nat) :
    ((applyRefresh env d st).sensor_info s).dev_num = (st.sensor_info s).dev_num := by
  simp only [applyRefresh]
  split <;> rfl

/-- `adjust_counters` never touches the device fd table. -/
@[simp]
theorem adjust_counters_device_fd (s : Nat) (e : Bool) (st : HalState) :
    ((adjust_counters s e st).2).device_fd = st.device_fd := by
  unfold adjust_counters
  cases e <;> simp only [Bool.false_eq_true, if_true, if_false] <;>
    (repeat' split) <;> rfl

/-- `adjust_counters` never touches the epoll membership table. -/
@[simp]
theorem adjust_counters_epoll_set (s : Nat) (e : Bool) (st : HalState) :
    ((adjust_counters s e st).2).epoll_set = st.epoll_set := by
  unfold adjust_counters
  cases e <;> simp only [Bool.false_eq_true, if_true, if_false] <;>
    (repeat' split) <;> rfl

/-- Enabling a sensor that is already enabled only bumps its refcount:
`adjust_counters` returns 0 and no per-device counter moves. -/
theorem adjust_counters_true_nonedge (st : HalState) (s : Nat)
    (h : (st.sensor_info s).enable_count ≠ 0) :
    adjust_counters s true st =
      (0, setSensor st s
        { st.sensor_info s with enable_count := (st.sensor_info s).enable_count + 1 }) := by
  have h1 : (st.sensor_info s).enable_count + 1 ≠ 1 := by omega
  simp [adjust_counters, h1]

/-- `adjust_counters` on the enable edge of a trigger-mode sensor: the
refcount becomes 1 and the device's `trig_sensors_per_dev` is bumped. -/
theorem adjust_counters_true_edge_trig (st : HalState) (s : Nat)
    (hcnt : (st.sensor_info s).enable_count = 0)
    (htrig : (st.sensor_info s).num_channels ≠ 0) :
    adjust_counters s true st =
      (1, { setSensor st s { st.sensor_info s with enable_count := 1 } with
            trig_sensors_per_dev := updFn st.trig_sensors_per_dev
              ((st.sensor_info s).dev_num)
              (st.trig_sensors_per_dev ((st.sensor_info s).dev_num) + 1) }) := by
  simp [adjust_counters, hcnt, htrig]

/-- `adjust_counters` on the enable edge of a poll-mode sensor: the refcount
becomes 1 and `poll_sensors_per_dev` and `active_poll_sensors` are bumped. -/
theorem adjust_counters_true_edge_poll (st : HalState) (s : Nat)
    (hcnt : (st.sensor_info s).enable_count = 0)
    (hpoll : (st.sensor_info s).num_channels = 0) :
    adjust_counters s true st =
      (1, { setSensor st s { st.sensor_info s with enable_count := 1 } with
            active_poll_sensors := st.active_poll_sensors + 1,
            poll_sensors_per_dev := updFn st.poll_sensors_per_dev
              ((st.sensor_info s).dev_num)
              (st.poll_sensors_per_dev ((st.sensor_info s).dev_num) + 1) }) := by
  simp [adjust_counters, hcnt, hpoll]

/-- Disabling a sensor whose refcount stays positive only decrements it:
`adjust_counters` returns 0 and no per-device counter moves. -/
theorem adjust_counters_false_nonedge (st : HalState) (s : Nat)
    (h : 2 ≤ (st.sensor_info s).enable_count) :
    adjust_counters s false st =
      (0, setSensor st s
        { st.sensor_info s with enable_count := (st.sensor_info s).enable_count - 1 }) := by
  have h0 : ¬ (st.sensor_info s).enable_count = 0 := by omega
  have h1 : (st.sensor_info s).enable_count - 1 > 0 := by omega
  simp [adjust_counters, h0, h1]

/-- `adjust_counters` on the disable edge of a trigger-mode sensor: the
refcount returns to 0, pending data is cleared and
`trig_sensors_per_dev` is decremented. -/
theorem adjust_counters_false_edge_trig (st : HalState) (s : Nat)
    (hcnt : (st.sensor_info s).enable_count = 1)
    (htrig : (st.sensor_info s).num_channels ≠ 0) :
    adjust_counters s false st =
      (1, { setSensor st s (disabledSensor (st.sensor_info s)) with
            trig_sensors_per_dev := updFn st.trig_sensors_per_dev
              ((st.sensor_info s).dev_num)
              (st.trig_sensors_per_dev ((st.sensor_info s).dev_num) - 1) }) := by
  simp [adjust_counters, hcnt, htrig, disabledSensor]

/-- `adjust_counters` on the disable edge of a poll-mode sensor. -/
theorem adjust_counters_false_edge_poll (st : HalState) (s : Nat)
    (hcnt : (st.sensor_info s).enable_count = 1)
    (hpoll : (st.sensor_info s).num_channels = 0) :
    adjust_counters s false st =
      (1, { setSensor st s (disabledSensor (st.sensor_info s)) with
            active_poll_sensors := st.active_poll_sensors - 1,
            poll_sensors_per_dev := updFn st.poll_sensors_per_dev
              ((st.sensor_info s).dev_num)
              (st.poll_sensors_per_dev ((st.sensor_info s).dev_num) - 1) }) := by
  simp [adjust_counters, hcnt, hpoll, disabledSensor]

@[simp]
theorem reconfig_device_fd (s : Nat) (e : Bool) (env : ActEnv) (d : Nat)
    (st1 : HalState) :
    (activate_trigger_reconfig s e env d st1).1.device_fd = st1.device_fd := by
  simp only [activate_trigger_reconfig]
  repeat' split
  all_goals simp

@[simp]
theorem reconfig_epoll_set (s : Nat) (e : Bool) (env : ActEnv) (d : Nat)
    (st1 : HalState) :
    (activate_trigger_reconfig s e env d st1).1.epoll_set = st1.epoll_set := by
  simp only [activate_trigger_reconfig]
  repeat' split
  all_goals simp

@[simp]
theorem reconfig_poll_dev (s : Nat) (e : Bool) (env : ActEnv) (d : Nat)
    (st1 : HalState) :
    (activate_trigger_reconfig s e env d st1).1.poll_sensors_per_dev =
      st1.poll_sensors_per_dev := by
  simp only [activate_trigger_reconfig]
  repeat' split
  all_goals simp

@[simp]
theorem reconfig_trig_dev (s : Nat) (e : Bool) (env : ActEnv) (d : Nat)
    (st1 : HalState) :
    (activate_trigger_reconfig s e env d st1).1.trig_sensors_per_dev =
      st1.trig_sensors_per_dev := by
  simp only [activate_trigger_reconfig]
  repeat' split
  all_goals simp

@[simp]
theorem reconfig_active (s : Nat) (e : Bool) (env : ActEnv) (d : Nat)
    (st1 : HalState) :
    (activate_trigger_reconfig s e env d st1).1.active_poll_sensors =
      st1.active_poll_sensors := by
  simp only [activate_trigger_reconfig]
  repeat' split
  all_goals simp

@[simp]
theorem reconfig_enable_count (s t : Nat) (e : Bool) (env : ActEnv) (d : Nat)
    (st1 : HalState) :
    ((activate_trigger_reconfig s e env d st1).1.sensor_info t).enable_count =
      (st1.sensor_info t).enable_count := by
  simp only [activate_trigger_reconfig]
  repeat' split
  all_goals simp

@[simp]
theorem reconfig_num_channels (s t : Nat) (e : Bool) (env : ActEnv) (d : Nat)
    (st1 : HalState) :
    ((activate_trigger_reconfig s e env d st1).1.sensor_info t).num_channels =
      (st1.sensor_info t).num_channels := by
  simp only [activate_trigger_reconfig]
  repeat' split
  all_goals simp

@[simp]
theorem reconfig_dev_num (s t : Nat) (e : Bool) (env : ActEnv) (d : Nat)
    (st1 : HalState) :
    ((activate_trigger_reconfig s e env d st1).1.sensor_info t).dev_num =
      (st1.sensor_info t).dev_num := by
  simp only [activate_trigger_reconfig]
  repeat' split
  all_goals simp

/-- The reconfiguration stage performs no wakeup write. -/
theorem wakeup_not_mem_reconfig (s : Nat) (e : Bool) (env : ActEnv) (d : Nat)
    (st1 : HalState) :
    Effect.wakeupWrite ∉ (activate_trigger_reconfig s e env d st1).2 := by
  simp only [activate_trigger_reconfig]
  repeat' split
  all_goals simp [List.mem_append, List.mem_map]

/-- fd stage, enable path, fd freshly opened, trigger sensor, epoll add
failure: return -1 with the fd still open and stored, no rollback, no
wakeup. -/
theorem fd_stage_enable_open_addfail (s : Nat) (env : ActEnv) (dev : Nat)
    (st2 : HalState) (hfd : st2.device_fd dev = -1) (hopen : env.open_fd ≠ -1)
    (hch : (st2.sensor_info s).num_channels ≠ 0)
    (hadd : env.epoll_add_ok = false) :
    activate_fd_stage s true env dev st2 =
      (-1, { st2 with device_fd := updFn st2.device_fd dev env.open_fd },
       [Effect.openDevFd dev, Effect.epollAdd dev]) := by
  simp [activate_fd_stage, hfd, hopen, hch, hadd]

/-- `adjust_counters` does not change any sensor's channel count. -/
@[simp]
theorem adjust_counters_num_channels (s : Nat) (e : Bool) (st : HalState) (t : Nat) :
    (((adjust_counters s e st).2).sensor_info t).num_channels =
      (st.sensor_info t).num_channels := by
  simp only [adjust_counters, setSensor]
  repeat' split
  all_goals simp [updFn]
  all_goals split <;> simp_all

/-- `adjust_counters` does not change any sensor's device binding. -/
@[simp]
theorem adjust_counters_dev_num (s : Nat) (e : Bool) (st : HalState) (t : Nat) :
    (((adjust_counters s e st).2).sensor_info t).dev_num =
      (st.sensor_info t).dev_num := by
  simp only [adjust_counters, setSensor]
  repeat' split
  all_goals simp [updFn]
  all_goals split <;> simp_all

/-- Shape of the reconfiguration trace for a trigger-mode sensor: a leading
`buffer/enable = 0`, then the trigger writes, then one `_en` write per
channel, then — exactly when the device still has trigger-mode sensors — the
layout refresh followed by `buffer/enable = 1`. -/
theorem reconfig_trace_decomp (s : Nat) (e : Bool) (env : ActEnv) (d : Nat)
    (st1 : HalState) (hch : (st1.sensor_info s).num_channels ≠ 0) :
    ∃ trigPart,
      (activate_trigger_reconfig s e env d st1).2 =
        [Effect.bufferEnable d 0] ++ trigPart ++
        (List.range (st1.sensor_info s).num_channels).map
          (fun c => Effect.channelEnWrite d c (if e then 1 else 0)) ++
        (if st1.trig_sensors_per_dev d ≠ 0 then
          [Effect.refreshMaps d, Effect.bufferEnable d 1] else []) ∧
      ∀ x ∈ trigPart, ∃ v, x = Effect.setTrigger d v := by
  refine ⟨(if st1.trig_sensors_per_dev d = 0 then
      [Effect.setTrigger d TriggerVal.trigNone]
    else if st1.trig_sensors_per_dev d = 1 then
      [Effect.setTrigger d (TriggerVal.trigSensorDev s d)]
    else []), ?_, ?_⟩
  · simp only [activate_trigger_reconfig, if_neg hch]
    split
    · simp
    · simp
  · intro x hx
    split at hx
    · simp at hx
      exact ⟨_, hx⟩
    · split at hx
      · simp at hx
        exact ⟨_, hx⟩
      · simp at hx

/-- Every effect of the fd-management stage is an fd or wakeup operation:
never a sysfs buffer, trigger, channel or refresh action. -/
theorem fd_stage_trace_shape (s : Nat) (e : Bool) (env : ActEnv) (dev : Nat)
    (st2 : HalState) :
    ∀ x ∈ (activate_fd_stage s e env dev st2).2.2,
      x = Effect.epollDel dev ∨ x = Effect.closeDevFd dev ∨
      x = Effect.openDevFd dev ∨ x = Effect.epollAdd dev ∨
      x = Effect.wakeupWrite := by
  intro x hx
  simp only [activate_fd_stage] at hx
  repeat' split at hx
  all_goals simp at hx
  all_goals tauto

/-- Positional separation in a concatenated trace: an element satisfying `P`
(absent from the right part) occurs strictly before an element satisfying
`Q` (absent from the left part). -/
theorem get_lt_of_split (l₁ l₂ : List Effect) (P Q : Effect → Prop)
    (h₁ : ∀ x ∈ l₂, ¬ P x) (h₂ : ∀ x ∈ l₁, ¬ Q x)
    (i j : Nat) (x y : Effect)
    (hx : (l₁ ++ l₂).get? i = some x) (hP : P x)
    (hy : (l₁ ++ l₂).get? j = some y) (hQ : Q y) : i < j := by
  have hi : i < l₁.length := by
    by_contra hni
    push_neg at hni
    rw [List.get?_append_right hni] at hx
    exact h₁ x (List.get?_mem hx) hP
  have hj : l₁.length ≤ j := by
    by_contra hnj
    push_neg at hnj
    rw [List.get?_append hnj] at hy
    exact h₂ y (List.get?_mem hy) hQ
  omega

/-- C8: ordering of the sysfs effects of one `sensor_activate` call that
toggles a trigger-mode sensor (an activation edge): the `buffer/enable = 0`
write opens the trace and in particular precedes every channel `_en` write
(one of which is issued for each of the sensor's channels); the
`buffer/enable = 1` write occurs exactly when the device still has
`trig_sensors_per_dev ≠ 0` after the counter step, and it follows every
channel `_en` write as well as the layout refresh. -/
theorem activation_edge_sysfs_order (st : HalState) (s : Nat) (env : ActEnv)
    (enabled : Bool)
    (htrig : (st.sensor_info s).num_channels ≠ 0)
    (hedge : (adjust_counters s enabled st).1 = 1) :
    (∀ j c v, (sensor_activate s enabled env st).2.2.get? j =
        some (Effect.channelEnWrite ((st.sensor_info s).dev_num) c v) →
      (sensor_activate s enabled env st).2.2.get? 0 =
        some (Effect.bufferEnable ((st.sensor_info s).dev_num) 0) ∧ 0 < j) ∧
    (∀ c, c < (st.sensor_info s).num_channels →
      Effect.channelEnWrite ((st.sensor_info s).dev_num) c
          (if enabled then 1 else 0) ∈ (sensor_activate s enabled env st).2.2) ∧
    (∀ i j c v, (sensor_activate s enabled env st).2.2.get? i =
        some (Effect.bufferEnable ((st.sensor_info s).dev_num) 1) →
      (sensor_activate s enabled env st).2.2.get? j =
        some (Effect.channelEnWrite ((st.sensor_info s).dev_num) c v) →
      j < i) ∧
    (∀ i j, (sensor_activate s enabled env st).2.2.get? i =
        some (Effect.bufferEnable ((st.sensor_info s).dev_num) 1) →
      (sensor_activate s enabled env st).2.2.get? j =
        some (Effect.refreshMaps ((st.sensor_info s).dev_num)) →
      j < i) ∧
    (Effect.bufferEnable ((st.sensor_info s).dev_num) 1 ∈
        (sensor_activate s enabled env st).2.2 ↔
      ((adjust_counters s enabled st).2).trig_sensors_per_dev
        ((st.sensor_info s).dev_num) ≠ 0) := by
  have hne : ¬((adjust_counters s enabled st).1 ≤ 0) := by
    rw [hedge]
    norm_num
  set dev := (st.sensor_info s).dev_num with hdev
  set stA := (adjust_counters s enabled st).2 with hstA
  have hch1 : ((stA.sensor_info s).num_channels ≠ 0) := by
    rw [hstA, adjust_counters_num_channels]
    exact htrig
  obtain ⟨TP, hdec, hTP⟩ := reconfig_trace_decomp s enabled env dev stA hch1
  rw [hstA, adjust_counters_num_channels] at hdec
  set stB := (activate_trigger_reconfig s enabled env dev stA).1 with hstB
  set fdTr := (activate_fd_stage s enabled env dev stB).2.2 with hfdTr
  set chanW := (List.range (st.sensor_info s).num_channels).map
      (fun c => Effect.channelEnWrite dev c (if enabled then 1 else 0)) with hchanW
  set tailW := (if stA.trig_sensors_per_dev dev ≠ 0 then
      [Effect.refreshMaps dev, Effect.bufferEnable dev 1] else
      ([] : List Effect)) with htailW
  have key : (sensor_activate s enabled env st).2.2 =
      [Effect.bufferEnable dev 0] ++ TP ++ chanW ++ tailW ++ fdTr := by
    simp only [sensor_activate]
    rw [if_neg hne]
    show (activate_trigger_reconfig s enabled env dev stA).2 ++ fdTr = _
    rw [hdec]
  have hfdshape := fd_stage_trace_shape s enabled env dev stB
  rw [← hfdTr] at hfdshape
  have hnotchan_right : ∀ x ∈ tailW ++ fdTr, ∀ c v, x ≠ Effect.channelEnWrite dev c v := by
    intro x hx c v
    rcases List.mem_append.1 hx with h | h
    · rw [htailW] at h
      split at h
      · simp at h
        rcases h with h | h <;> simp [h]
      · simp at h
    · rcases hfdshape x h with h | h | h | h | h <;> simp [h]
  have hnotbuf1_chan : ∀ x ∈ chanW, x ≠ Effect.bufferEnable dev 1 := by
    intro x hx
    rw [hchanW] at hx
    simp only [List.mem_map, List.mem_range] at hx
    obtain ⟨c, _, rfl⟩ := hx
    simp
  have hnotbuf1_left : ∀ x ∈ [Effect.bufferEnable dev 0] ++ TP ++ chanW,
      x ≠ Effect.bufferEnable dev 1 := by
    intro x hx
    rcases List.mem_append.1 hx with h | h
    · rcases List.mem_append.1 h with h | h
      · simp at h
        simp [h]
      · obtain ⟨v, rfl⟩ := hTP x h
        simp
    · exact hnotbuf1_chan x h
  have hbuf1_not_fd : ∀ x ∈ fdTr, x ≠ Effect.bufferEnable dev 1 := by
    intro x h
    rcases hfdshape x h with h | h | h | h | h <;> simp [h]
  refine ⟨?_, ?_, ?_, ?_, ?_⟩
  · -- buffer disable opens the trace; channel writes come strictly later
    intro j c v hj
    constructor
    · rw [key]
      rfl
    · rcases Nat.eq_zero_or_pos j with rfl | hpos
      · rw [key] at hj
        simp at hj
      · exact hpos
  · -- one `_en` write per channel is present
    intro c hc
    rw [key, hchanW]
    simp only [List.mem_append, List.mem_map, List.mem_range]
    left
    left
    right
    exact ⟨c, hc, rfl⟩
  · -- every channel write precedes `buffer/enable = 1`
    intro i j c v hi hj
    have key3 : (sensor_activate s enabled env st).2.2 =
        ([Effect.bufferEnable dev 0] ++ TP ++ chanW) ++ (tailW ++ fdTr) := by
      rw [key]
      simp [List.append_assoc]
    rw [key3] at hi hj
    exact get_lt_of_split _ _
      (fun x => ∃ c v, x = Effect.channelEnWrite dev c v)
      (fun x => x = Effect.bufferEnable dev 1)
      (by
        intro x hx hP
        obtain ⟨c1, v1, rfl⟩ := hP
        exact hnotchan_right _ hx c1 v1 rfl)
      (by
        intro x hx hQ
        exact hnotbuf1_left x hx hQ)
      j i _ _ hj ⟨c, v, rfl⟩ hi rfl
  · -- the refresh precedes `buffer/enable = 1`
    have hbuf1_none : stA.trig_sensors_per_dev dev = 0 →
        Effect.bufferEnable dev 1 ∉ (sensor_activate s enabled env st).2.2 := by
      intro h0 hmem
      rw [key, htailW, if_neg (by simp [h0])] at hmem
      simp only [List.nil_append, List.append_nil, List.mem_append] at hmem
      have hnot0 : Effect.bufferEnable dev 1 ∉ [Effect.bufferEnable dev 0] := by simp
      have hnotTP : Effect.bufferEnable dev 1 ∉ TP := by
        intro h
        obtain ⟨v, hv⟩ := hTP _ h
        simp at hv
      have hnotC : Effect.bufferEnable dev 1 ∉ chanW := fun h => hnotbuf1_chan _ h rfl
      have hnotF : Effect.bufferEnable dev 1 ∉ fdTr := fun h => hbuf1_not_fd _ h rfl
      tauto
    intro i j hi hj
    by_cases htn : stA.trig_sensors_per_dev dev ≠ 0
    · have key4 : (sensor_activate s enabled env st).2.2 =
          ([Effect.bufferEnable dev 0] ++ TP ++ chanW ++ [Effect.refreshMaps dev]) ++
          ([Effect.bufferEnable dev 1] ++ fdTr) := by
        rw [key, htailW, if_pos htn]
        simp
      rw [key4] at hi hj
      exact get_lt_of_split _ _
        (fun x => x = Effect.refreshMaps dev)
        (fun x => x = Effect.bufferEnable dev 1)
        (by
          intro x hx hP
          subst hP
          rcases List.mem_append.1 hx with h | h
          · simp at h
          · rcases hfdshape _ h with h | h | h | h | h <;> simp at h)
        (by
          intro x hx hQ
          subst hQ
          rcases List.mem_append.1 hx with h | h
          · exact hnotbuf1_left _ h rfl
          · simp at h)
        j i _ _ hj rfl hi rfl
    · exact absurd (List.get?_mem hi) (hbuf1_none (by omega))
  · -- `buffer/enable = 1` happens iff the device keeps trigger sensors
    have hbuf1_none : stA.trig_sensors_per_dev dev = 0 →
        Effect.bufferEnable dev 1 ∉ (sensor_activate s enabled env st).2.2 := by
      intro h0 hmem
      rw [key, htailW, if_neg (by simp [h0])] at hmem
      simp only [List.nil_append, List.append_nil, List.mem_append] at hmem
      have hnot0 : Effect.bufferEnable dev 1 ∉ [Effect.bufferEnable dev 0] := by simp
      have hnotTP : Effect.bufferEnable dev 1 ∉ TP := by
        intro h
        obtain ⟨v, hv⟩ := hTP _ h
        simp at hv
      have hnotC : Effect.bufferEnable dev 1 ∉ chanW := fun h => hnotbuf1_chan _ h rfl
      have hnotF : Effect.bufferEnable dev 1 ∉ fdTr := fun h => hbuf1_not_fd _ h rfl
      tauto
    constructor
    · intro hmem
      by_contra htn
      exact hbuf1_none (by omega) hmem
    · intro htn
      rw [key, htailW, if_pos htn]
      simp

/-- Closed instance of `activation_edge_sysfs_order`: enabling the single
trigger-mode sensor writes each channel `_en` and ends with
`buffer/enable = 1` since the device now has a trigger sensor. -/
theorem activation_edge_sysfs_order_witness :
    (Effect.channelEnWrite 0 0 (if true then 1 else 0) ∈
      (sensor_activate 0 true envOk (mkState 1 fun _ => mkSensor 0 3 0)).2.2) ∧
    (Effect.bufferEnable 0 1 ∈
        (sensor_activate 0 true envOk (mkState 1 fun _ => mkSensor 0 3 0)).2.2 ↔
      ((adjust_counters 0 true (mkState 1 fun _ => mkSensor 0 3 0)).2).trig_sensors_per_dev
        0 ≠ 0) :=
  ⟨(activation_edge_sysfs_order (mkState 1 fun _ => mkSensor 0 3 0) 0 envOk true
      (by decide) (by decide)).2.1 0 (by decide),
   (activation_edge_sysfs_order (mkState 1 fun _ => mkSensor 0 3 0) 0 envOk true
      (by decide) (by decide)).2.2.2.2⟩

/-- C10: when a trigger-mode enable freshly opens the device fd and the
subsequent `epoll_ctl(EPOLL_CTL_ADD)` fails, `sensor_activate` returns -1
without rolling anything back: the sensor's `enable_count` stays
incremented (1), the device's `trig_sensors_per_dev` stays incremented, the
fd stays open and stored in the device table, and no wakeup byte is written
to the self-pipe. -/
theorem epoll_add_failure_no_rollback (st : HalState) (s : Nat) (env : ActEnv)
    (htrig : (st.sensor_info s).num_channels ≠ 0)
    (hcnt : (st.sensor_info s).enable_count = 0)
    (hfd : st.device_fd ((st.sensor_info s).dev_num) = -1)
    (hopen : env.open_fd ≠ -1)
    (hadd : env.epoll_add_ok = false) :
    (sensor_activate s true env st).1 = -1 ∧
    (((sensor_activate s true env st).2.1).sensor_info s).enable_count = 1 ∧
    ((sensor_activate s true env st).2.1).trig_sensors_per_dev
        ((st.sensor_info s).dev_num) =
      st.trig_sensors_per_dev ((st.sensor_info s).dev_num) + 1 ∧
    ((sensor_activate s true env st).2.1).device_fd ((st.sensor_info s).dev_num) =
      env.open_fd ∧
    Effect.wakeupWrite ∉ (sensor_activate s true env st).2.2 := by
  have hadj := adjust_counters_true_edge_trig st s hcnt htrig
  simp only [sensor_activate, hadj]
  rw [if_neg (by norm_num)]
  have hBfd : (activate_trigger_reconfig s true env ((st.sensor_info s).dev_num)
      (adjust_counters s true st).2).1.device_fd ((st.sensor_info s).dev_num) = -1 := by
    rw [reconfig_device_fd, hadj]
    simpa using hfd
  have hBch : ((activate_trigger_reconfig s true env ((st.sensor_info s).dev_num)
      (adjust_counters s true st).2).1.sensor_info s).num_channels ≠ 0 := by
    rw [reconfig_num_channels, hadj]
    simpa using htrig
  rw [hadj] at hBfd hBch
  rw [fd_stage_enable_open_addfail s env ((st.sensor_info s).dev_num) _ hBfd hopen
    hBch hadd]
  refine ⟨rfl, ?_, ?_, ?_, ?_⟩
  · simp [hadj]
  · simp [hadj, updFn]
  · simp [updFn]
  · simp only [List.mem_append]
    rintro (h | h)
    · exact wakeup_not_mem_reconfig _ _ _ _ _ h
    · simp at h

/-- Closed instance of `epoll_add_failure_no_rollback` at a concrete one
trigger-sensor configuration. -/
theorem epoll_add_failure_no_rollback_witness :
    (sensor_activate 0 true ⟨7, false, fun _ _ ci => ci⟩
        (mkState 1 fun _ => mkSensor 0 3 0)).1 = -1 ∧
    (((sensor_activate 0 true ⟨7, false, fun _ _ ci => ci⟩
        (mkState 1 fun _ => mkSensor 0 3 0)).2.1).sensor_info 0).enable_count = 1 ∧
    ((sensor_activate 0 true ⟨7, false, fun _ _ ci => ci⟩
        (mkState 1 fun _ => mkSensor 0 3 0)).2.1).trig_sensors_per_dev 0 =
      (mkState 1 fun _ => mkSensor 0 3 0).trig_sensors_per_dev 0 + 1 ∧
    ((sensor_activate 0 true ⟨7, false, fun _ _ ci => ci⟩
        (mkState 1 fun _ => mkSensor 0 3 0)).2.1).device_fd 0 = 7 ∧
    Effect.wakeupWrite ∉ (sensor_activate 0 true ⟨7, false, fun _ _ ci => ci⟩
        (mkState 1 fun _ => mkSensor 0 3 0)).2.2 :=
  epoll_add_failure_no_rollback (mkState 1 fun _ => mkSensor 0 3 0) 0
    ⟨7, false, fun _ _ ci => ci⟩ (by decide) rfl rfl (by decide) rfl

/-- The drain scan finds exactly the lowest pending index at or above its
starting point. -/
theorem scanPendingFrom_spec (info : Nat → SensorInfo) (count : Nat) :
    ∀ n s0, count - s0 = n →
    (∃ s, s0 ≤ s ∧ s < count ∧ (info s).report_pending = true) →
    ∃ r, scanPendingFrom info count s0 = some r ∧ s0 ≤ r ∧ r < count ∧
      (info r).report_pending = true ∧
      ∀ t, s0 ≤ t → t < r → (info t).report_pending = false := by
  intro n
  induction n with
  | zero =>
    intro s0 hn hex
    obtain ⟨s, hs1, hs2, _⟩ := hex
    omega
  | succ n ih =>
    intro s0 hn hex
    obtain ⟨s, hs1, hs2, hs3⟩ := hex
    have hlt : s0 < count := by omega
    rw [scanPendingFrom]
    rw [dif_pos hlt]
    by_cases hp : (info s0).report_pending = true
    · rw [if_pos hp]
      refine ⟨s0, rfl, Nat.le_refl s0, hlt, hp, ?_⟩
      intro t h1 h2
      omega
    · rw [if_neg hp]
      have hs0 : s ≠ s0 := by
        intro hss
        rw [hss] at hs3
        exact hp hs3
      obtain ⟨r, hr1, hr2, hr3, hr4, hr5⟩ :=
        ih (s0 + 1) (by omega) ⟨s, by omega, hs2, hs3⟩
      refine ⟨r, hr1, by omega, hr3, hr4, ?_⟩
      intro t h1 h2
      rcases Nat.eq_or_lt_of_le h1 with rfl | h1'
      · exact Bool.not_eq_true _ ▸ Bool.of_not_eq_true hp
      · exact hr5 t (by omega) h2

/-- C5: whenever some sensor has `report_pending` set on entry, the drain
phase of `sensor_poll` returns exactly 1 without reaching the wait: the
pending sensor with the lowest index is shaped (through `ops.finalize`) into
the output event, its `report_pending` flag is cleared, and every other
sensor's record is untouched. -/
theorem poll_drain_returns_lowest_pending (env : PollEnv) (st : HalState)
    (h : ∃ s, s < st.sensor_count ∧ (st.sensor_info s).report_pending = true) :
    ∃ s0 ev st',
      sensor_poll_drain env st = some (1, ev, st') ∧
      s0 < st.sensor_count ∧
      (st.sensor_info s0).report_pending = true ∧
      (∀ t, t < s0 → (st.sensor_info t).report_pending = false) ∧
      ev = env.finalize s0 (shape_sensor_event s0 env (st.sensor_info s0)) ∧
      (shape_sensor_event s0 env (st.sensor_info s0)).sensor = (s0 : Int) ∧
      (st'.sensor_info s0).report_pending = false ∧
      (∀ t, t ≠ s0 → st'.sensor_info t = st.sensor_info t) := by
  obtain ⟨s, hs, hp⟩ := h
  obtain ⟨r, hr1, _, hr3, hr4, hr5⟩ :=
    scanPendingFrom_spec st.sensor_info st.sensor_count (st.sensor_count - 0) 0 rfl
      ⟨s, Nat.zero_le s, hs, hp⟩
  refine ⟨r, env.finalize r (shape_sensor_event r env (st.sensor_info r)),
    setSensor (propagate_sensor_report r env st).2 r
      { ((propagate_sensor_report r env st).2).sensor_info r with report_pending := false },
    ?_, hr3, hr4, (fun t ht => hr5 t (Nat.zero_le t) ht), rfl, ?_, ?_, ?_⟩
  · simp [sensor_poll_drain, hr1, propagate_sensor_report]
  · simp only [shape_sensor_event]
    split <;> rfl
  · simp
  · intro t ht
    rw [setSensor_sensor_info_other _ _ _ _ ht]
    simp only [propagate_sensor_report]
    rw [setSensor_sensor_info_other _ _ _ _ ht]

/-- Closed instance of `poll_drain_returns_lowest_pending` at a two-sensor
state whose second sensor has a pending report. -/
theorem poll_drain_returns_lowest_pending_witness :
    ∃ s0 ev st',
      sensor_poll_drain
        ⟨fun _ => SensorType.light, 104, 5, 6, fun _ _ => 0, fun _ _ _ => 0,
          fun _ ev => ev⟩
        (mkState 2 fun s => if s = 0 then mkSensor 0 0 0
          else { mkSensor 0 0 0 with report_pending := true }) =
        some (1, ev, st') ∧
      s0 < (mkState 2 fun s => if s = 0 then mkSensor 0 0 0
          else { mkSensor 0 0 0 with report_pending := true }).sensor_count ∧
      ((mkState 2 fun s => if s = 0 then mkSensor 0 0 0
          else { mkSensor 0 0 0 with report_pending := true }).sensor_info s0).report_pending
        = true ∧
      (∀ t, t < s0 →
        ((mkState 2 fun s => if s = 0 then mkSensor 0 0 0
          else { mkSensor 0 0 0 with report_pending := true }).sensor_info t).report_pending
          = false) ∧
      ev = (⟨fun _ => SensorType.light, 104, 5, 6, fun _ _ => 0, fun _ _ _ => 0,
          fun _ ev => ev⟩ : PollEnv).finalize s0
        (shape_sensor_event s0
          ⟨fun _ => SensorType.light, 104, 5, 6, fun _ _ => 0, fun _ _ _ => 0,
            fun _ ev => ev⟩
          ((mkState 2 fun s => if s = 0 then mkSensor 0 0 0
            else { mkSensor 0 0 0 with report_pending := true }).sensor_info s0)) ∧
      (shape_sensor_event s0
          ⟨fun _ => SensorType.light, 104, 5, 6, fun _ _ => 0, fun _ _ _ => 0,
            fun _ ev => ev⟩
          ((mkState 2 fun s => if s = 0 then mkSensor 0 0 0
            else { mkSensor 0 0 0 with report_pending := true }).sensor_info s0)).sensor
        = (s0 : Int) ∧
      (st'.sensor_info s0).report_pending = false ∧
      (∀ t, t ≠ s0 →
        st'.sensor_info t =
          (mkState 2 fun s => if s = 0 then mkSensor 0 0 0
            else { mkSensor 0 0 0 with report_pending := true }).sensor_info t) :=
  poll_drain_returns_lowest_pending
    ⟨fun _ => SensorType.light, 104, 5, 6, fun _ _ => 0, fun _ _ _ => 0,
      fun _ ev => ev⟩
    (mkState 2 fun s => if s = 0 then mkSensor 0 0 0
      else { mkSensor 0 0 0 with report_pending := true })
    ⟨1, by decide, by decide⟩

/-- Writing back the value a table already holds is a no-op. -/
theorem updFn_self {α : Type} (f : Nat → α) (i : Nat) : updFn f i (f i) = f := by
  funext j
  unfold updFn
  split
  · subst j
    rfl
  · rfl

/-- A second update at the same index overwrites the first. -/
theorem updFn_updFn {α : Type} (f : Nat → α) (i : Nat) (a b : α) :
    updFn (updFn f i a) i b = updFn f i b := by
  funext j
  unfold updFn
  split <;> rfl

/-- Restoring the original value after an update yields the original table. -/
theorem updFn_restore {α : Type} (f : Nat → α) (i : Nat) (a : α) :
    updFn (updFn f i a) i (f i) = f := by
  rw [updFn_updFn, updFn_self]

theorem setSensor_setSensor (st : HalState) (s : Nat) (a b : SensorInfo) :
    setSensor (setSensor st s a) s b = setSensor st s b := by
  unfold setSensor
  simp [updFn_updFn]

theorem setSensor_self (st : HalState) (s : Nat) :
    setSensor st s (st.sensor_info s) = st := by
  unfold setSensor
  rw [updFn_self]

/-- A non-edge enable call returns before the reconfiguration and fd stages:
only the refcount moves. -/
theorem activate_true_nonedge_state (st : HalState) (s : Nat) (env : ActEnv)
    (h : (st.sensor_info s).enable_count ≠ 0) :
    (sensor_activate s true env st).2.1 =
      setEnableCount st s ((st.sensor_info s).enable_count + 1) := by
  simp [sensor_activate, adjust_counters_true_nonedge st s h, setEnableCount]

/-- A non-edge disable call returns before the reconfiguration and fd stages:
only the refcount moves. -/
theorem activate_false_nonedge_state (st : HalState) (s : Nat) (env : ActEnv)
    (h : 2 ≤ (st.sensor_info s).enable_count) :
    (sensor_activate s false env st).2.1 =
      setEnableCount st s ((st.sensor_info s).enable_count - 1) := by
  simp [sensor_activate, adjust_counters_false_nonedge st s h, setEnableCount]

/-- The fd stage never moves the three activation counters as long as `open`
does not fail (an open failure rolls the counter step back). -/
theorem fd_stage_counters (s : Nat) (e : Bool) (env : ActEnv) (dev : Nat)
    (st2 : HalState) (hopen : env.open_fd ≠ -1) :
    countersOf ((activate_fd_stage s e env dev st2).2.1) = countersOf st2 := by
  simp only [activate_fd_stage]
  repeat' split
  all_goals first | rfl | simp_all

/-- The fd stage never changes any sensor's refcount as long as `open` does
not fail. -/
theorem fd_stage_enable_count (s : Nat) (e : Bool) (env : ActEnv) (dev : Nat)
    (st2 : HalState) (t : Nat) (hopen : env.open_fd ≠ -1) :
    (((activate_fd_stage s e env dev st2).2.1).sensor_info t).enable_count =
      ((st2.sensor_info t).enable_count) := by
  simp only [activate_fd_stage]
  repeat' split
  all_goals first | rfl | simp_all

/-- The fd stage never changes any sensor's channel count (even when `open`
fails and the counters are rolled back). -/
theorem fd_stage_num_channels (s : Nat) (e : Bool) (env : ActEnv) (dev : Nat)
    (st2 : HalState) (t : Nat) :
    (((activate_fd_stage s e env dev st2).2.1).sensor_info t).num_channels =
      ((st2.sensor_info t).num_channels) := by
  simp only [activate_fd_stage]
  repeat' split
  all_goals simp

/-- The fd stage never changes any sensor's device binding. -/
theorem fd_stage_dev_num (s : Nat) (e : Bool) (env : ActEnv) (dev : Nat)
    (st2 : HalState) (t : Nat) :
    (((activate_fd_stage s e env dev st2).2.1).sensor_info t).dev_num =
      ((st2.sensor_info t).dev_num) := by
  simp only [activate_fd_stage]
  repeat' split
  all_goals simp

/-- As long as `open` succeeds, the counter effect of a whole
`sensor_activate` call is exactly that of its `adjust_counters` step. -/
theorem activate_counters_eq_adjust (st : HalState) (s : Nat) (e : Bool)
    (env : ActEnv) (hopen : env.open_fd ≠ -1) :
    countersOf ((sensor_activate s e env st).2.1) =
      countersOf ((adjust_counters s e st).2) := by
  simp only [sensor_activate]
  split
  · rfl
  · rw [fd_stage_counters _ _ _ _ _ hopen]
    simp [countersOf]

/-- As long as `open` succeeds, the refcount effect of a whole
`sensor_activate` call is exactly that of its `adjust_counters` step. -/
theorem activate_enable_count_eq_adjust (st : HalState) (s : Nat) (e : Bool)
    (env : ActEnv) (t : Nat) (hopen : env.open_fd ≠ -1) :
    (((sensor_activate s e env st).2.1).sensor_info t).enable_count =
      (((adjust_counters s e st).2).sensor_info t).enable_count := by
  simp only [sensor_activate]
  split
  · rfl
  · rw [fd_stage_enable_count _ _ _ _ _ _ hopen]
    simp

/-- `sensor_activate` never changes a sensor's channel count. -/
theorem activate_num_channels (st : HalState) (s : Nat) (e : Bool)
    (env : ActEnv) (t : Nat) :
    (((sensor_activate s e env st).2.1).sensor_info t).num_channels =
      (st.sensor_info t).num_channels := by
  simp only [sensor_activate]
  split
  · simp
  · rw [fd_stage_num_channels]
    simp

/-- `sensor_activate` never changes a sensor's device binding. -/
theorem activate_dev_num (st : HalState) (s : Nat) (e : Bool)
    (env : ActEnv) (t : Nat) :
    (((sensor_activate s e env st).2.1).sensor_info t).dev_num =
      (st.sensor_info t).dev_num := by
  simp only [sensor_activate]
  split
  · simp
  · rw [fd_stage_dev_num]
    simp

/-- `adjust_counters` always bumps the refcount on enable. -/
theorem adjust_true_enable_count (st : HalState) (s : Nat) :
    (((adjust_counters s true st).2).sensor_info s).enable_count =
      (st.sensor_info s).enable_count + 1 := by
  simp only [adjust_counters, setSensor]
  repeat' split
  all_goals simp_all [updFn]

/-- `adjust_counters` decrements the refcount on any non-spurious disable. -/
theorem adjust_false_enable_count (st : HalState) (s : Nat)
    (h : (st.sensor_info s).enable_count ≠ 0) :
    (((adjust_counters s false st).2).sensor_info s).enable_count =
      (st.sensor_info s).enable_count - 1 := by
  simp only [adjust_counters, setSensor]
  repeat' split
  all_goals simp_all [updFn]

/-- Peeling one application off the right of `iterate_activate`. -/
theorem iterate_activate_succ_right (s : Nat) (e : Bool) (env : ActEnv) :
    ∀ (k : Nat) (st : HalState),
      iterate_activate s e env (k + 1) st =
        (sensor_activate s e env (iterate_activate s e env k st)).2.1 := by
  intro k
  induction k with
  | zero => intro st; rfl
  | succ k ih =>
    intro st
    show iterate_activate s e env (k + 1) ((sensor_activate s e env st).2.1) = _
    rw [ih]
    rfl

/-- A block of enables on an already-enabled sensor only accumulates the
refcount. -/
theorem iterate_true_nonedge (s : Nat) (env : ActEnv) :
    ∀ (k : Nat) (st : HalState), 1 ≤ (st.sensor_info s).enable_count →
      iterate_activate s true env k st =
        setEnableCount st s ((st.sensor_info s).enable_count + (k : Int)) := by
  intro k
  induction k with
  | zero =>
    intro st _
    simp only [iterate_activate, Nat.cast_zero, add_zero, setEnableCount]
    exact (setSensor_self st s).symm
  | succ k ih =>
    intro st h
    show iterate_activate s true env k ((sensor_activate s true env st).2.1) = _
    rw [activate_true_nonedge_state st s env (by omega)]
    rw [ih (setEnableCount st s ((st.sensor_info s).enable_count + 1))
      (by simp [setEnableCount]; omega)]
    simp only [setEnableCount, setSensor_setSensor, setSensor_sensor_info_self]
    have harith : (st.sensor_info s).enable_count + 1 + (k : Int) =
        (st.sensor_info s).enable_count + ((k + 1 : Nat) : Int) := by
      push_cast
      ring
    rw [harith]

/-- A block of disables that never exhausts the refcount only drains it. -/
theorem iterate_false_nonedge (s : Nat) (env : ActEnv) :
    ∀ (k : Nat) (st : HalState), (k : Int) + 1 ≤ (st.sensor_info s).enable_count →
      iterate_activate s false env k st =
        setEnableCount st s ((st.sensor_info s).enable_count - (k : Int)) := by
  intro k
  induction k with
  | zero =>
    intro st _
    simp only [iterate_activate, Nat.cast_zero, sub_zero, setEnableCount]
    exact (setSensor_self st s).symm
  | succ k ih =>
    intro st h
    push_cast at h
    show iterate_activate s false env k ((sensor_activate s false env st).2.1) = _
    rw [activate_false_nonedge_state st s env (by omega)]
    rw [ih (setEnableCount st s ((st.sensor_info s).enable_count - 1))
      (by simp [setEnableCount]; omega)]
    simp only [setEnableCount, setSensor_setSensor, setSensor_sensor_info_self]
    have harith : (st.sensor_info s).enable_count - 1 - (k : Int) =
        (st.sensor_info s).enable_count - ((k + 1 : Nat) : Int) := by
      push_cast
      ring
    rw [harith]

@[simp]
theorem setEnableCount_counters (st : HalState) (s : Nat) (v : Int) :
    countersOf (setEnableCount st s v) = countersOf st := by
  simp [setEnableCount, countersOf]

@[simp]
theorem setEnableCount_info (st : HalState) (s : Nat) (v : Int) :
    (setEnableCount st s v).sensor_info s =
      { st.sensor_info s with enable_count := v } := by
  simp [setEnableCount]

/-- C6: the refcount round trip.  From `enable_count = 0`, `n ≥ 1` enables
followed by `n` disables (all succeeding) restore `enable_count = 0` and
leave `poll_sensors_per_dev`, `trig_sensors_per_dev` and
`active_poll_sensors` exactly at their starting values; moreover an enable
on an already-enabled sensor and a disable that leaves the refcount positive
move no per-device counter at all, so only the first enable and the last
disable do. -/
theorem refcount_round_trip (st : HalState) (s : Nat) (env : ActEnv) (n : Nat)
    (hn : 1 ≤ n)
    (hcnt : (st.sensor_info s).enable_count = 0)
    (hopen : env.open_fd ≠ -1) :
    ((((iterate_activate s false env n (iterate_activate s true env n st))).sensor_info s).enable_count
        = 0) ∧
    (iterate_activate s false env n (iterate_activate s true env n st)).poll_sensors_per_dev
        = st.poll_sensors_per_dev ∧
    (iterate_activate s false env n (iterate_activate s true env n st)).trig_sensors_per_dev
        = st.trig_sensors_per_dev ∧
    (iterate_activate s false env n (iterate_activate s true env n st)).active_poll_sensors
        = st.active_poll_sensors ∧
    (∀ st2, 1 ≤ (st2.sensor_info s).enable_count →
      countersOf ((sensor_activate s true env st2).2.1) = countersOf st2) ∧
    (∀ st2, 2 ≤ (st2.sensor_info s).enable_count →
      countersOf ((sensor_activate s false env st2).2.1) = countersOf st2) := by
  obtain ⟨m, rfl⟩ : ∃ m, n = m + 1 := ⟨n - 1, by omega⟩
  set dev := (st.sensor_info s).dev_num with hdev
  set stE := (sensor_activate s true env st).2.1 with hstE
  have hEcnt : (stE.sensor_info s).enable_count = 1 := by
    rw [hstE, activate_enable_count_eq_adjust st s true env s hopen,
      adjust_true_enable_count, hcnt]
    norm_num
  have hEch : (stE.sensor_info s).num_channels = (st.sensor_info s).num_channels :=
    activate_num_channels st s true env s
  have hEdev : (stE.sensor_info s).dev_num = dev := activate_dev_num st s true env s
  have hN : iterate_activate s true env (m + 1) st = setEnableCount stE s (1 + m) := by
    show iterate_activate s true env m stE = _
    rw [iterate_true_nonedge s env m stE (by omega), hEcnt]
  set stN := setEnableCount stE s (1 + m) with hstN
  have hM : iterate_activate s false env m stN = setEnableCount stE s 1 := by
    have hcN : (stN.sensor_info s).enable_count = 1 + m := by simp [hstN]
    rw [iterate_false_nonedge s env m stN (by rw [hcN]; omega), hcN]
    have harith : (1 : Int) + (m : Int) - (m : Int) = 1 := by ring
    rw [harith, hstN]
    simp only [setEnableCount, setSensor_sensor_info_self, setSensor_setSensor]
  set stM := setEnableCount stE s 1 with hstM
  have hMcnt : (stM.sensor_info s).enable_count = 1 := by simp [hstM]
  have hMch : (stM.sensor_info s).num_channels = (st.sensor_info s).num_channels := by
    rw [hstM]
    simp [setEnableCount]
    exact hEch
  have hMdev : (stM.sensor_info s).dev_num = dev := by
    rw [hstM]
    simp [setEnableCount]
    exact hEdev
  have hMcounters : countersOf stM = countersOf stE := by
    rw [hstM]
    simp
  have hEcounters : countersOf stE = countersOf ((adjust_counters s true st).2) := by
    rw [hstE]
    exact activate_counters_eq_adjust st s true env hopen
  have hsplit : iterate_activate s false env (m + 1) (iterate_activate s true env (m + 1) st)
      = (sensor_activate s false env stM).2.1 := by
    rw [hN, iterate_activate_succ_right, hM]
  rw [hsplit]
  have hFcnt : (((sensor_activate s false env stM).2.1).sensor_info s).enable_count = 0 := by
    rw [activate_enable_count_eq_adjust stM s false env s hopen,
      adjust_false_enable_count stM s (by omega), hMcnt]
    norm_num
  have hFcounters : countersOf ((sensor_activate s false env stM).2.1) = countersOf st := by
    rw [activate_counters_eq_adjust stM s false env hopen]
    by_cases hch : (st.sensor_info s).num_channels = 0
    · rw [adjust_counters_false_edge_poll stM s hMcnt (by rw [hMch]; exact hch)]
      rw [adjust_counters_true_edge_poll st s hcnt hch] at hEcounters
      have hcomb := hMcounters.trans hEcounters
      have hpoll : stM.poll_sensors_per_dev =
          updFn st.poll_sensors_per_dev dev (st.poll_sensors_per_dev dev + 1) :=
        congrArg (fun p => p.1) hcomb
      have htrig : stM.trig_sensors_per_dev = st.trig_sensors_per_dev :=
        congrArg (fun p => p.2.1) hcomb
      have hactive : stM.active_poll_sensors = st.active_poll_sensors + 1 :=
        congrArg (fun p => p.2.2) hcomb
      simp only [countersOf, Prod.mk.injEq]
      refine ⟨?_, htrig, ?_⟩
      · show updFn stM.poll_sensors_per_dev ((stM.sensor_info s).dev_num)
            (stM.poll_sensors_per_dev ((stM.sensor_info s).dev_num) - 1) =
          st.poll_sensors_per_dev
        rw [hMdev, hpoll]
        have hval : updFn st.poll_sensors_per_dev dev
            (st.poll_sensors_per_dev dev + 1) dev = st.poll_sensors_per_dev dev + 1 := by
          simp [updFn]
        rw [hval]
        have harith : st.poll_sensors_per_dev dev + 1 - 1 = st.poll_sensors_per_dev dev := by
          ring
        rw [harith, updFn_restore]
      · show stM.active_poll_sensors - 1 = st.active_poll_sensors
        rw [hactive]
        ring
    · rw [adjust_counters_false_edge_trig stM s hMcnt (by rw [hMch]; exact hch)]
      rw [adjust_counters_true_edge_trig st s hcnt hch] at hEcounters
      have hcomb := hMcounters.trans hEcounters
      have hpoll : stM.poll_sensors_per_dev = st.poll_sensors_per_dev :=
        congrArg (fun p => p.1) hcomb
      have htrig : stM.trig_sensors_per_dev =
          updFn st.trig_sensors_per_dev dev (st.trig_sensors_per_dev dev + 1) :=
        congrArg (fun p => p.2.1) hcomb
      have hactive : stM.active_poll_sensors = st.active_poll_sensors :=
        congrArg (fun p => p.2.2) hcomb
      simp only [countersOf, Prod.mk.injEq]
      refine ⟨hpoll, ?_, hactive⟩
      · show updFn stM.trig_sensors_per_dev ((stM.sensor_info s).dev_num)
            (stM.trig_sensors_per_dev ((stM.sensor_info s).dev_num) - 1) =
          st.trig_sensors_per_dev
        rw [hMdev, htrig]
        have hval : updFn st.trig_sensors_per_dev dev
            (st.trig_sensors_per_dev dev + 1) dev = st.trig_sensors_per_dev dev + 1 := by
          simp [updFn]
        rw [hval]
        have harith : st.trig_sensors_per_dev dev + 1 - 1 = st.trig_sensors_per_dev dev := by
          ring
        rw [harith, updFn_restore]
  refine ⟨hFcnt, congrArg (fun p => p.1) hFcounters,
    congrArg (fun p => p.2.1) hFcounters, congrArg (fun p => p.2.2) hFcounters, ?_, ?_⟩
  · intro st2 h2
    rw [activate_true_nonedge_state st2 s env (by omega)]
    simp
  · intro st2 h2
    rw [activate_false_nonedge_state st2 s env h2]
    simp

/-- Closed instance of `refcount_round_trip` with n = 2 on a trigger-mode
sensor. -/
theorem refcount_round_trip_witness :
    ((((iterate_activate 0 false envOk 2
        (iterate_activate 0 true envOk 2
          (mkState 1 fun _ => mkSensor 0 3 0)))).sensor_info 0).enable_count = 0) ∧
    (iterate_activate 0 false envOk 2 (iterate_activate 0 true envOk 2
        (mkState 1 fun _ => mkSensor 0 3 0))).poll_sensors_per_dev
      = (mkState 1 fun _ => mkSensor 0 3 0).poll_sensors_per_dev ∧
    (iterate_activate 0 false envOk 2 (iterate_activate 0 true envOk 2
        (mkState 1 fun _ => mkSensor 0 3 0))).trig_sensors_per_dev
      = (mkState 1 fun _ => mkSensor 0 3 0).trig_sensors_per_dev ∧
    (iterate_activate 0 false envOk 2 (iterate_activate 0 true envOk 2
        (mkState 1 fun _ => mkSensor 0 3 0))).active_poll_sensors
      = (mkState 1 fun _ => mkSensor 0 3 0).active_poll_sensors ∧
    (∀ st2, 1 ≤ (st2.sensor_info 0).enable_count →
      countersOf ((sensor_activate 0 true envOk st2).2.1) = countersOf st2) ∧
    (∀ st2, 2 ≤ (st2.sensor_info 0).enable_count →
      countersOf ((sensor_activate 0 false envOk st2).2.1) = countersOf st2) :=
  refcount_round_trip (mkState 1 fun _ => mkSensor 0 3 0) 0 envOk 2
    (by norm_num) rfl (by decide)

/-- C3 amended: in the scan loop of `refresh_sensor_report_maps`, a channel
whose three attributes are all readable is recorded in the index tables
(and counted in `active_channels`) exactly when its scan index is below
MAX_SENSORS — the code checks `ch_index >= MAX_SENSORS`, not
`MAX_SENSORS * MAX_CHANNELS`; any channel with
MAX_SENSORS ≤ index < MAX_SENSORS × MAX_CHANNELS is skipped as well. -/
theorem refresh_channel_skip_bound (max_sensors : Nat) (env : SysfsEnv)
    (s c : Nat) (si : Nat → SensorInfo) (t : ReportTables) (e sz ix : Int)
    (hen : env.read_en s c = some e)
    (hty : env.read_type_size s c = some sz)
    (hix : env.read_index s c = some ix) :
    ((0 ≤ ix ∧ ix < (max_sensors : Int)) →
      ((refresh_scan_channel max_sensors env s c (si, t)).2.channel_size_from_index
          ix.toNat = sz ∧
       (refresh_scan_channel max_sensors env s c (si, t)).2.sensor_handle_from_index
          ix.toNat = s ∧
       (refresh_scan_channel max_sensors env s c (si, t)).2.channel_number_from_index
          ix.toNat = c ∧
       (refresh_scan_channel max_sensors env s c (si, t)).2.active_channels =
          t.active_channels + 1)) ∧
    (((max_sensors : Int) ≤ ix) →
      (refresh_scan_channel max_sensors env s c (si, t)).2 = t) := by
  constructor
  · intro hlt
    simp only [refresh_scan_channel, hen, hty, hix]
    rw [if_neg (by omega)]
    simp [updFn]
  · intro hge
    simp only [refresh_scan_channel, hen, hty, hix]
    rw [if_pos hge]

/-- Closed instance of `refresh_channel_skip_bound` with MAX_SENSORS = 10:
index 3 is recorded, index 10 is skipped. -/
theorem refresh_channel_skip_bound_witness :
    ((refresh_scan_channel 10
        ⟨fun _ _ => some 1, fun _ _ => some 2, fun _ _ => some 3⟩ 0 0
        (fun _ => mkSensor 0 1 0, initTables)).2.channel_size_from_index 3 = 2 ∧
     (refresh_scan_channel 10
        ⟨fun _ _ => some 1, fun _ _ => some 2, fun _ _ => some 3⟩ 0 0
        (fun _ => mkSensor 0 1 0, initTables)).2.sensor_handle_from_index 3 = 0 ∧
     (refresh_scan_channel 10
        ⟨fun _ _ => some 1, fun _ _ => some 2, fun _ _ => some 3⟩ 0 0
        (fun _ => mkSensor 0 1 0, initTables)).2.channel_number_from_index 3 = 0 ∧
     (refresh_scan_channel 10
        ⟨fun _ _ => some 1, fun _ _ => some 2, fun _ _ => some 3⟩ 0 0
        (fun _ => mkSensor 0 1 0, initTables)).2.active_channels =
        initTables.active_channels + 1) ∧
    (refresh_scan_channel 10 envIndexTen 0 0
      (fun _ => mkSensor 0 1 0, initTables)).2 = initTables :=
  ⟨(refresh_channel_skip_bound 10
      ⟨fun _ _ => some 1, fun _ _ => some 2, fun _ _ => some 3⟩ 0 0
      (fun _ => mkSensor 0 1 0) initTables 1 2 3 rfl rfl rfl).1 (by decide),
   (refresh_channel_skip_bound 10 envIndexTen 0 0
      (fun _ => mkSensor 0 1 0) initTables 1 2 10 rfl rfl rfl).2 (by decide)⟩

/-- C3 counterexample: with MAX_SENSORS = 10 and MAX_CHANNELS = 4, a fully
readable enabled channel whose scan index reads 10 satisfies
10 < MAX_SENSORS × MAX_CHANNELS = 40, yet `refresh_sensor_report_maps`
records nothing for it: the index tables stay empty and no channel is
counted, refuting the claim that every channel with a scan index below
MAX_SENSORS × MAX_CHANNELS is recorded. -/
theorem refresh_index_below_msmc_not_recorded :
    (10 < 10 * 4) ∧
    (refresh_sensor_report_maps 10 4 envIndexTen 0
      (mkState 1 fun _ => mkSensor 0 1 0)).2.channel_size_from_index 10 = 0 ∧
    (refresh_sensor_report_maps 10 4 envIndexTen 0
      (mkState 1 fun _ => mkSensor 0 1 0)).2.active_channels = 0 := by
  refine ⟨by decide, ?_, ?_⟩ <;> decide

/-- C2: evaluation of `refresh_sensor_report_maps` at a channel whose `_en`
attribute reads 0.  The source condition `!ch_enabled != 1` fires only for
enabled channels and nothing skips the body for disabled ones, so the
channel is still recorded in the index tables with its decoded size,
counted as an enabled channel, and assigned offset 0 — it is not treated
as absent. -/
theorem disabled_channel_still_recorded :
    (refresh_sensor_report_maps 10 4 envDisabledChannel 0
      (mkState 1 fun _ => mkSensor 0 1 0)).2.channel_size_from_index 0 = 2 ∧
    (refresh_sensor_report_maps 10 4 envDisabledChannel 0
      (mkState 1 fun _ => mkSensor 0 1 0)).2.active_channels = 1 ∧
    (((refresh_sensor_report_maps 10 4 envDisabledChannel 0
      (mkState 1 fun _ => mkSensor 0 1 0)).1.sensor_info 0).channels 0).size = 2 ∧
    (((refresh_sensor_report_maps 10 4 envDisabledChannel 0
      (mkState 1 fun _ => mkSensor 0 1 0)).1.sensor_info 0).channels 0).offset = 0 := by
  refine ⟨?_, ?_, ?_, ?_⟩ <;> decide

/-- Branch lemma: disable with the fd open and both refcounts zero
deregisters the fd from epoll and closes it. -/
theorem fd_stage_disable_close (s : Nat) (env : ActEnv) (dev : Nat) (st2 : HalState)
    (h1 : st2.device_fd dev ≠ -1) (h2 : st2.poll_sensors_per_dev dev = 0)
    (h3 : st2.trig_sensors_per_dev dev = 0) :
    activate_fd_stage s false env dev st2 =
      (0, { st2 with epoll_set := updFn st2.epoll_set dev false,
                     device_fd := updFn st2.device_fd dev (-1) },
       [Effect.epollDel dev, Effect.closeDevFd dev]) := by
  simp [activate_fd_stage, h1, h2, h3]

/-- Branch lemma: a disable that leaves the fd closed or some refcount
positive touches neither the fd table nor the epoll set. -/
theorem fd_stage_disable_noclose (s : Nat) (env : ActEnv) (dev : Nat) (st2 : HalState)
    (h : ¬(st2.device_fd dev ≠ -1 ∧ st2.poll_sensors_per_dev dev = 0 ∧
        st2.trig_sensors_per_dev dev = 0)) :
    activate_fd_stage s false env dev st2 = (0, st2, []) := by
  simp only [activate_fd_stage]
  rw [if_pos trivial, if_neg h]

/-- Branch lemma: an enable that needs a fresh fd and whose `open` fails
stores -1, rolls the counters back and returns -1. -/
theorem fd_stage_enable_openfail (s : Nat) (env : ActEnv) (dev : Nat) (st2 : HalState)
    (hfd : st2.device_fd dev = -1) (hopen : env.open_fd = -1) :
    activate_fd_stage s true env dev st2 =
      (-1, (adjust_counters s false
        { st2 with device_fd := updFn st2.device_fd dev env.open_fd }).2,
       [Effect.openDevFd dev]) := by
  simp [activate_fd_stage, hfd, hopen]

/-- Branch lemma: a trigger-mode enable that freshly opens the fd and whose
`epoll_ctl(ADD)` succeeds registers the device with the waiter. -/
theorem fd_stage_enable_open_addok (s : Nat) (env : ActEnv) (dev : Nat) (st2 : HalState)
    (hfd : st2.device_fd dev = -1) (hopen : env.open_fd ≠ -1)
    (hch : (st2.sensor_info s).num_channels ≠ 0) (hadd : env.epoll_add_ok = true) :
    activate_fd_stage s true env dev st2 =
      (0, { st2 with device_fd := updFn st2.device_fd dev env.open_fd,
                     epoll_set := updFn st2.epoll_set dev true },
       [Effect.openDevFd dev, Effect.epollAdd dev, Effect.wakeupWrite]) := by
  simp [activate_fd_stage, hfd, hopen, hch, hadd]

/-- Branch lemma: a poll-mode enable that freshly opens the fd never touches
the epoll set. -/
theorem fd_stage_enable_open_poll (s : Nat) (env : ActEnv) (dev : Nat) (st2 : HalState)
    (hfd : st2.device_fd dev = -1) (hopen : env.open_fd ≠ -1)
    (hch : (st2.sensor_info s).num_channels = 0) :
    activate_fd_stage s true env dev st2 =
      (0, { st2 with device_fd := updFn st2.device_fd dev env.open_fd },
       [Effect.openDevFd dev, Effect.wakeupWrite]) := by
  simp [activate_fd_stage, hfd, hopen, hch]

/-- Branch lemma: an enable on a device whose fd is already open leaves the
fd table and the epoll set untouched and only wakes the poll loop. -/
theorem fd_stage_enable_fd_present (s : Nat) (env : ActEnv) (dev : Nat)
    (st2 : HalState) (hfd : st2.device_fd dev ≠ -1) :
    activate_fd_stage s true env dev st2 = (0, st2, [Effect.wakeupWrite]) := by
  simp [activate_fd_stage, hfd]

/-- The fd-management stage preserves `WaiterOpenInv`. -/
theorem fd_stage_preserves_waiter_inv (s : Nat) (e : Bool) (env : ActEnv)
    (dev : Nat) (st2 : HalState) (h : WaiterOpenInv st2) :
    WaiterOpenInv ((activate_fd_stage s e env dev st2).2.1) := by
  cases e
  · by_cases hc : st2.device_fd dev ≠ -1 ∧ st2.poll_sensors_per_dev dev = 0 ∧
        st2.trig_sensors_per_dev dev = 0
    · rw [fd_stage_disable_close s env dev st2 hc.1 hc.2.1 hc.2.2]
      intro d hd
      by_cases hdd : d = dev
      · subst hdd
        simp [updFn] at hd
      · show updFn st2.device_fd dev (-1) d ≠ -1
        simp only [updFn, if_neg hdd] at hd ⊢
        exact h d hd
    · rw [fd_stage_disable_noclose s env dev st2 hc]
      exact h
  · by_cases hfd : st2.device_fd dev = -1
    · by_cases ho : env.open_fd = -1
      · rw [fd_stage_enable_openfail s env dev st2 hfd ho]
        intro d hd
        rw [adjust_counters_epoll_set] at hd
        rw [adjust_counters_device_fd]
        by_cases hdd : d = dev
        · subst hdd
          exact absurd hfd (h d hd)
        · show updFn st2.device_fd dev env.open_fd d ≠ -1
          simp only [updFn, if_neg hdd]
          exact h d hd
      · by_cases hch : (st2.sensor_info s).num_channels = 0
        · rw [fd_stage_enable_open_poll s env dev st2 hfd ho hch]
          intro d hd
          show updFn st2.device_fd dev env.open_fd d ≠ -1
          by_cases hdd : d = dev
          · simp only [updFn, if_pos hdd]
            exact ho
          · simp only [updFn, if_neg hdd]
            exact h d hd
        · cases hadd : env.epoll_add_ok
          · rw [fd_stage_enable_open_addfail s env dev st2 hfd ho hch hadd]
            intro d hd
            show updFn st2.device_fd dev env.open_fd d ≠ -1
            by_cases hdd : d = dev
            · simp only [updFn, if_pos hdd]
              exact ho
            · simp only [updFn, if_neg hdd]
              exact h d hd
          · rw [fd_stage_enable_open_addok s env dev st2 hfd ho hch hadd]
            intro d hd
            have hd' : updFn st2.epoll_set dev true d = true := hd
            show updFn st2.device_fd dev env.open_fd d ≠ -1
            by_cases hdd : d = dev
            · simp only [updFn, if_pos hdd]
              exact ho
            · simp only [updFn, if_neg hdd] at hd' ⊢
              exact h d hd'
    · rw [fd_stage_enable_fd_present s env dev st2 hfd]
      exact h

/-- One `sensor_activate` call preserves `WaiterOpenInv`. -/
theorem activate_preserves_waiter_inv (s : Nat) (e : Bool) (env : ActEnv)
    (st : HalState) (h : WaiterOpenInv st) :
    WaiterOpenInv ((sensor_activate s e env st).2.1) := by
  simp only [sensor_activate]
  split
  · intro d hd
    rw [adjust_counters_epoll_set] at hd
    rw [adjust_counters_device_fd]
    exact h d hd
  · apply fd_stage_preserves_waiter_inv
    intro d hd
    rw [reconfig_epoll_set, adjust_counters_epoll_set] at hd
    rw [reconfig_device_fd, adjust_counters_device_fd]
    exact h d hd

/-- `adjust_counters` only ever returns -1, 0 or 1. -/
theorem adjust_counters_ret_vals (s : Nat) (e : Bool) (st : HalState) :
    (adjust_counters s e st).1 = -1 ∨ (adjust_counters s e st).1 = 0 ∨
    (adjust_counters s e st).1 = 1 := by
  simp only [adjust_counters, setSensor]
  repeat' split
  all_goals simp

/-- C1 amended: the characterization of waiter membership the code actually
maintains.  (1) Across any sequence of `sensor_activate` calls, a registered
device fd is always open.  (2) An enable changes the epoll set exactly when
`activateRegisters` holds — an enable edge that freshly opens the fd of a
trigger-mode sensor with `open` and `epoll_ctl(ADD)` both succeeding — and
then it precisely registers that device; in every other case (fd already
open, poll-mode sensor, failed `open`, failed `ADD`, non-edge call) the
epoll set is left untouched.  (3) A disable changes the epoll set exactly
when `activateDeregisters` holds — a disable edge with the fd open and both
refcounts of the device zero afterwards, which also closes the fd — and then
it precisely deregisters that device; in every other case (in particular a
disable that drops `trig_sensors_per_dev` to 0 while `poll_sensors_per_dev`
stays positive) the epoll set is left untouched. -/
theorem waiter_membership_characterization :
    (∀ (calls : List (Nat × Bool × ActEnv)) (st : HalState),
      WaiterOpenInv st → WaiterOpenInv (runActivates calls st)) ∧
    (∀ (st : HalState) (s : Nat) (env : ActEnv), activateRegisters s env st →
      ((sensor_activate s true env st).2.1).epoll_set =
        updFn st.epoll_set ((st.sensor_info s).dev_num) true) ∧
    (∀ (st : HalState) (s : Nat) (env : ActEnv), ¬ activateRegisters s env st →
      ((sensor_activate s true env st).2.1).epoll_set = st.epoll_set) ∧
    (∀ (st : HalState) (s : Nat) (env : ActEnv), activateDeregisters s st →
      ((sensor_activate s false env st).2.1).epoll_set =
        updFn st.epoll_set ((st.sensor_info s).dev_num) false ∧
      ((sensor_activate s false env st).2.1).device_fd
        ((st.sensor_info s).dev_num) = -1) ∧
    (∀ (st : HalState) (s : Nat) (env : ActEnv), ¬ activateDeregisters s st →
      ((sensor_activate s false env st).2.1).epoll_set = st.epoll_set) := by
  refine ⟨?_, ?_, ?_, ?_, ?_⟩
  · -- (1) the invariant is preserved by any call sequence
    intro calls
    induction calls with
    | nil => intro st h; exact h
    | cons c rest ih =>
      intro st h
      exact ih _ (activate_preserves_waiter_inv c.1 c.2.1 c.2.2 st h)
  · -- (2a) a registering enable adds exactly the device's fd
    intro st s env hR
    obtain ⟨hret1, hfd, hopen, hch, hadd⟩ := hR
    have hretn : ¬((adjust_counters s true st).1 ≤ 0) := by
      rw [hret1]
      norm_num
    simp only [sensor_activate]
    rw [if_neg hretn]
    have h2fd : (activate_trigger_reconfig s true env ((st.sensor_info s).dev_num)
        (adjust_counters s true st).2).1.device_fd ((st.sensor_info s).dev_num)
        = -1 := by
      rw [reconfig_device_fd, adjust_counters_device_fd]
      exact hfd
    have h2ch : ((activate_trigger_reconfig s true env ((st.sensor_info s).dev_num)
        (adjust_counters s true st).2).1.sensor_info s).num_channels ≠ 0 := by
      rw [reconfig_num_channels, adjust_counters_num_channels]
      exact hch
    rw [fd_stage_enable_open_addok _ _ _ _ h2fd hopen h2ch hadd]
    show updFn ((activate_trigger_reconfig s true env ((st.sensor_info s).dev_num)
        (adjust_counters s true st).2).1.epoll_set) ((st.sensor_info s).dev_num) true
      = updFn st.epoll_set ((st.sensor_info s).dev_num) true
    rw [reconfig_epoll_set, adjust_counters_epoll_set]
  · -- (2b) every other enable leaves the epoll set untouched
    intro st s env hR
    by_cases hret : (adjust_counters s true st).1 ≤ 0
    · simp only [sensor_activate]
      rw [if_pos hret, adjust_counters_epoll_set]
    · have hret1 : (adjust_counters s true st).1 = 1 := by
        rcases adjust_counters_ret_vals s true st with h | h | h <;> omega
      simp only [sensor_activate]
      rw [if_neg hret]
      by_cases hfd : st.device_fd ((st.sensor_info s).dev_num) = -1
      · have h2fd : (activate_trigger_reconfig s true env
            ((st.sensor_info s).dev_num)
            (adjust_counters s true st).2).1.device_fd ((st.sensor_info s).dev_num)
            = -1 := by
          rw [reconfig_device_fd, adjust_counters_device_fd]
          exact hfd
        by_cases hopen : env.open_fd = -1
        · rw [fd_stage_enable_openfail _ _ _ _ h2fd hopen]
          rw [adjust_counters_epoll_set]
          show (activate_trigger_reconfig s true env ((st.sensor_info s).dev_num)
            (adjust_counters s true st).2).1.epoll_set = st.epoll_set
          rw [reconfig_epoll_set, adjust_counters_epoll_set]
        · by_cases hch : (st.sensor_info s).num_channels = 0
          · have h2ch : ((activate_trigger_reconfig s true env
                ((st.sensor_info s).dev_num)
                (adjust_counters s true st).2).1.sensor_info s).num_channels
                = 0 := by
              rw [reconfig_num_channels, adjust_counters_num_channels]
              exact hch
            rw [fd_stage_enable_open_poll _ _ _ _ h2fd hopen h2ch]
            show (activate_trigger_reconfig s true env ((st.sensor_info s).dev_num)
              (adjust_counters s true st).2).1.epoll_set = st.epoll_set
            rw [reconfig_epoll_set, adjust_counters_epoll_set]
          · cases hadd : env.epoll_add_ok
            · have h2ch : ((activate_trigger_reconfig s true env
                  ((st.sensor_info s).dev_num)
                  (adjust_counters s true st).2).1.sensor_info s).num_channels
                  ≠ 0 := by
                rw [reconfig_num_channels, adjust_counters_num_channels]
                exact hch
              rw [fd_stage_enable_open_addfail _ _ _ _ h2fd hopen h2ch hadd]
              show (activate_trigger_reconfig s true env
                ((st.sensor_info s).dev_num)
                (adjust_counters s true st).2).1.epoll_set = st.epoll_set
              rw [reconfig_epoll_set, adjust_counters_epoll_set]
            · exact absurd ⟨hret1, hfd, hopen, hch, hadd⟩ hR
      · have h2fd : (activate_trigger_reconfig s true env
            ((st.sensor_info s).dev_num)
            (adjust_counters s true st).2).1.device_fd ((st.sensor_info s).dev_num)
            ≠ -1 := by
          rw [reconfig_device_fd, adjust_counters_device_fd]
          exact hfd
        rw [fd_stage_enable_fd_present _ _ _ _ h2fd]
        show (activate_trigger_reconfig s true env ((st.sensor_info s).dev_num)
          (adjust_counters s true st).2).1.epoll_set = st.epoll_set
        rw [reconfig_epoll_set, adjust_counters_epoll_set]
  · -- (3a) a deregistering disable removes exactly the device's fd, closing it
    intro st s env hD
    obtain ⟨hret1, hfd, hp0, ht0⟩ := hD
    have hretn : ¬((adjust_counters s false st).1 ≤ 0) := by
      rw [hret1]
      norm_num
    simp only [sensor_activate]
    rw [if_neg hretn]
    have h2fd : (activate_trigger_reconfig s false env ((st.sensor_info s).dev_num)
        (adjust_counters s false st).2).1.device_fd ((st.sensor_info s).dev_num)
        ≠ -1 := by
      rw [reconfig_device_fd, adjust_counters_device_fd]
      exact hfd
    have hp2 : (activate_trigger_reconfig s false env ((st.sensor_info s).dev_num)
        (adjust_counters s false st).2).1.poll_sensors_per_dev
        ((st.sensor_info s).dev_num) = 0 := by
      rw [reconfig_poll_dev]
      exact hp0
    have ht2 : (activate_trigger_reconfig s false env ((st.sensor_info s).dev_num)
        (adjust_counters s false st).2).1.trig_sensors_per_dev
        ((st.sensor_info s).dev_num) = 0 := by
      rw [reconfig_trig_dev]
      exact ht0
    rw [fd_stage_disable_close _ _ _ _ h2fd hp2 ht2]
    constructor
    · show updFn ((activate_trigger_reconfig s false env
          ((st.sensor_info s).dev_num)
          (adjust_counters s false st).2).1.epoll_set) ((st.sensor_info s).dev_num)
          false
        = updFn st.epoll_set ((st.sensor_info s).dev_num) false
      rw [reconfig_epoll_set, adjust_counters_epoll_set]
    · show updFn ((activate_trigger_reconfig s false env
          ((st.sensor_info s).dev_num)
          (adjust_counters s false st).2).1.device_fd) ((st.sensor_info s).dev_num)
          (-1) ((st.sensor_info s).dev_num)
        = -1
      simp [updFn]
  · -- (3b) every other disable leaves the epoll set untouched
    intro st s env hD
    by_cases hret : (adjust_counters s false st).1 ≤ 0
    · simp only [sensor_activate]
      rw [if_pos hret, adjust_counters_epoll_set]
    · have hret1 : (adjust_counters s false st).1 = 1 := by
        rcases adjust_counters_ret_vals s false st with h | h | h <;> omega
      simp only [sensor_activate]
      rw [if_neg hret]
      have h2nc : ¬((activate_trigger_reconfig s false env
            ((st.sensor_info s).dev_num)
            (adjust_counters s false st).2).1.device_fd ((st.sensor_info s).dev_num)
            ≠ -1 ∧
          (activate_trigger_reconfig s false env ((st.sensor_info s).dev_num)
            (adjust_counters s false st).2).1.poll_sensors_per_dev
            ((st.sensor_info s).dev_num) = 0 ∧
          (activate_trigger_reconfig s false env ((st.sensor_info s).dev_num)
            (adjust_counters s false st).2).1.trig_sensors_per_dev
            ((st.sensor_info s).dev_num) = 0) := by
        rw [reconfig_device_fd, adjust_counters_device_fd, reconfig_poll_dev,
          reconfig_trig_dev]
        intro htriple
        exact hD ⟨hret1, htriple.1, htriple.2.1, htriple.2.2⟩
      rw [fd_stage_disable_noclose _ _ _ _ h2nc]
      show (activate_trigger_reconfig s false env ((st.sensor_info s).dev_num)
        (adjust_counters s false st).2).1.epoll_set = st.epoll_set
      rw [reconfig_epoll_set, adjust_counters_epoll_set]

/-- C1 counterexample: enable a poll-mode sensor on device 0 (this opens the
fd without registering it), then enable a trigger-mode sensor on the same
device.  Afterwards `trig_sensors_per_dev 0 > 0` but the fd is not in the
epoll set: the code registers a fd only at the moment it freshly opens it,
so the claimed equivalence (registered ⇔ trig_refcount > 0) is false. -/
theorem waiter_membership_counterexample :
    0 < ((sensor_activate 1 true envOk
      ((sensor_activate 0 true envOk
        (mkState 2 fun s => if s = 0 then mkSensor 0 0 0
          else mkSensor 0 3 0)).2.1)).2.1).trig_sensors_per_dev 0 ∧
    ((sensor_activate 1 true envOk
      ((sensor_activate 0 true envOk
        (mkState 2 fun s => if s = 0 then mkSensor 0 0 0
          else mkSensor 0 3 0)).2.1)).2.1).epoll_set 0 = false := by
  refine ⟨?_, ?_⟩ <;> decide

/-- Closed instance of `waiter_membership_characterization`: the invariant
holds after a call sequence from the initial state, and a fresh trigger-mode
enable at a concrete one-sensor state registers exactly its device. -/
theorem waiter_membership_characterization_witness :
    WaiterOpenInv (runActivates [(0, true, envOk)]
      (mkState 1 fun _ => mkSensor 0 3 0)) ∧
    ((sensor_activate 0 true envOk (mkState 1 fun _ => mkSensor 0 3 0)).2.1).epoll_set
      = updFn (mkState 1 fun _ => mkSensor 0 3 0).epoll_set
          (((mkState 1 fun _ => mkSensor 0 3 0).sensor_info 0).dev_num) true ∧
    ((sensor_activate 0 false envOk
        { mkState 1 fun _ => mkSensor 0 3 0 with device_fd := fun _ => 5 }).2.1).epoll_set
      = ({ mkState 1 fun _ => mkSensor 0 3 0 with
            device_fd := fun _ => 5 } : HalState).epoll_set :=
  ⟨waiter_membership_characterization.1 [(0, true, envOk)]
    (mkState 1 fun _ => mkSensor 0 3 0)
    (by
      intro d hd
      simp [mkState] at hd),
   waiter_membership_characterization.2.1 (mkState 1 fun _ => mkSensor 0 3 0) 0
    envOk ⟨by decide, by decide, by decide, by decide, by decide⟩,
   waiter_membership_characterization.2.2.2.2
    { mkState 1 fun _ => mkSensor 0 3 0 with device_fd := fun _ => 5 } 0 envOk
    (by
      intro hD
      exact absurd hD.1 (by decide))⟩

end IioHal
